import Mathlib

/-!
# Shopping cart demo (`build/scripts-plain.js`)

A shallow embedding of the catalog / cart script and proofs about it.

Modelling conventions.

* The two module-level objects `products` and `cart` become the fields of an explicit
  `State` that every operation receives and returns.
* `prompt(...)` answers are arguments of type `Option String`: `none` is the `null` that
  Cancel / Escape produce, `some s` is the text typed.  The arguments are listed in the
  order the prompts are shown; an operation that returns early never looks at the later ones.
* `console.info` / `console.error` calls become the list of `Console` entries an operation
  returns next to the new state (the functions return `undefined` in the source).
* JavaScript numbers are IEEE-754 doubles.  Every number the script stores is an integer
  (`Number.isInteger` is checked before anything is stored, and the typedefs declare ids,
  prices and quantities as integers), so the `number` fields are `Int`.  A number that is
  computed (`Number.parseInt`, the products and sums of `cartInfo` and `formatProduct`) is a
  `JSNumber`, which adds `NaN` and the infinities, and is rounded to the nearest double
  (`roundNat`, ties to even, `Infinity` from `2^1024 - 2^970` on).  `0` and `-0` are one
  value: `validateInteger` rejects both, so the script stores neither.
* Two additions are exact in the script and are written as integer additions: the new id
  `products.length + 1` (an array length is below `2^32`) and `line.quantity += quantity` (at
  most 99 is added per call, so the sum is below `2^53` in any state that fewer than
  `9 * 10^13` calls produce).
* What the platform decides is a parameter, the `Host`: the text `Intl.NumberFormat` gives
  for a price, and the text a template literal gives for an integer of magnitude `2^53` or
  more, whose last digits ECMAScript leaves to the implementation.
* Cart lines hold a reference to a product object.  Products are never mutated after they
  are created, so the reference is modelled by a copy of the record.
-/

namespace Cart7

set_option maxRecDepth 100000

/-! ## Data model -/

/-- The `Product` typedef (source lines 1-7). -/
structure Product where
  id : Int
  title : String
  description : String
  price : Int
  deriving DecidableEq, Repr

/-- The `CartLine` typedef (source lines 35-39). -/
structure CartLine where
  product : Product
  quantity : Int
  deriving DecidableEq, Repr

/-- The `Cart` typedef (source lines 41-46); `none` is `null`. -/
structure Cart where
  lines : List CartLine
  name : Option String
  address : Option String
  deriving DecidableEq, Repr

/-- The module-level state: the `products` array and the `cart` object. -/
structure State where
  products : List Product
  cart : Cart
  deriving DecidableEq, Repr

/-- One call of `console.info` or `console.error`. -/
inductive Console where
  | info (msg : String)
  | error (msg : String)
  deriving DecidableEq, Repr

/-- The value of a computed JavaScript number: `NaN`, an integer-valued double, or
`Infinity` / `-Infinity`. -/
inductive JSNumber where
  | nan
  | int (value : Int)
  | inf (negative : Bool)
  deriving DecidableEq, Repr

/-- What the platform supplies: `formatPrice` is the text `Intl.NumberFormat` gives for a
number (source lines 71-76), `largeNumberText` the text a template literal gives for an
integer of magnitude `2^53` or more. -/
structure Host where
  formatPrice : JSNumber → String
  largeNumberText : Int → String

/-- The initial `products` array (source lines 13-33). -/
def products : List Product :=
  [ { id := 1
      title := "HTML húfa"
      description :=
        "Húfa sem heldur hausnum heitum og hvíslar hugsanlega að þér hvaða element væri best að nota."
      price := 5000 },
    { id := 2
      title := "CSS sokkar"
      description := "Sokkar sem skalast vel með hvaða fótum sem er."
      price := 3000 },
    { id := 3
      title := "JavaScript jakki"
      description := "Mjög töff jakki fyrir öll sem skrifa JavaScript reglulega."
      price := 20000 } ]

/-- The initial `cart` object (source lines 52-56). -/
def cart : Cart := { lines := [], name := none, address := none }

/-- The state right after the script is loaded. -/
def initial : State := { products := products, cart := cart }

/-! ## JavaScript primitives the script relies on -/

/-- The test `!x` on a prompt answer: `null` and the empty string are falsy. -/
def falsy : Option String → Bool
  | none => true
  | some s => s.isEmpty

/-- The abstract operation `ToString` on a prompt answer: `null` becomes the text `null`. -/
def toStringArg : Option String → String
  | none => "null"
  | some s => s

/-- How many low bits a natural number has beyond 53, counted up to `fuel`. -/
def excessBits : Nat → Nat → Nat
  | 0, _ => 0
  | fuel + 1, n => if n < 2 ^ 53 then 0 else excessBits fuel (n / 2) + 1

/-- The double nearest to a natural number, ties to the even significand; `none` is
`Infinity`.  Below `2^53` every natural number is a double.  Above, the number keeps its 53
leading bits `q` and drops `e` bits `r`, rounding `q` up when `r` is more than half, or is
half with `q` odd.  A number the fuel of `excessBits` does not cover is `2^1077` or more and
overflows like every result from `2^1024` on. -/
def roundNat (n : Nat) : Option Nat :=
  if n < 2 ^ 53 then some n
  else
    let e := excessBits 1024 n
    let q := n >>> e
    let r := n - (q <<< e)
    let half := 1 <<< (e - 1)
    let q' := if half < r ∨ (r = half ∧ q % 2 = 1) then q + 1 else q
    if q' <<< e < 1 <<< 1024 then some (q' <<< e) else none

/-- The Number value of a mathematical integer: the nearest double, with its sign. -/
def JSNumber.ofInt (z : Int) : JSNumber :=
  match roundNat z.natAbs with
  | some m => JSNumber.int (if z < 0 then -(m : Int) else (m : Int))
  | none => JSNumber.inf (decide (z < 0))

/-- The operator `*` on numbers. -/
def JSNumber.mul : JSNumber → JSNumber → JSNumber
  | JSNumber.nan, _ => JSNumber.nan
  | _, JSNumber.nan => JSNumber.nan
  | JSNumber.int a, JSNumber.int b => JSNumber.ofInt (a * b)
  | JSNumber.int a, JSNumber.inf t =>
    if a = 0 then JSNumber.nan else JSNumber.inf (decide (a < 0) != t)
  | JSNumber.inf s, JSNumber.int b =>
    if b = 0 then JSNumber.nan else JSNumber.inf (s != decide (b < 0))
  | JSNumber.inf s, JSNumber.inf t => JSNumber.inf (s != t)

/-- The operator `+` on numbers. -/
def JSNumber.add : JSNumber → JSNumber → JSNumber
  | JSNumber.nan, _ => JSNumber.nan
  | _, JSNumber.nan => JSNumber.nan
  | JSNumber.int a, JSNumber.int b => JSNumber.ofInt (a + b)
  | JSNumber.int _, JSNumber.inf t => JSNumber.inf t
  | JSNumber.inf s, JSNumber.int _ => JSNumber.inf s
  | JSNumber.inf s, JSNumber.inf t => if s = t then JSNumber.inf s else JSNumber.nan

/-- The code points `parseInt` skips at the start: ECMAScript `WhiteSpace` and
`LineTerminator`. -/
def isStrWhiteSpaceChar (c : Char) : Bool :=
  let n := c.toNat
  n = 0x09 || n = 0x0A || n = 0x0B || n = 0x0C || n = 0x0D || n = 0x20 || n = 0xA0 ||
  n = 0x1680 || (0x2000 ≤ n && n ≤ 0x200A) || n = 0x2028 || n = 0x2029 || n = 0x202F ||
  n = 0x205F || n = 0x3000 || n = 0xFEFF

/-- A decimal digit, `0` to `9`. -/
def isDecimalDigit (c : Char) : Bool :=
  48 ≤ c.toNat && c.toNat ≤ 57

/-- The mathematical value of a run of decimal digits. -/
def digitsValue (Z : List Char) : Nat :=
  Z.foldl (fun acc c => 10 * acc + (c.toNat - 48)) 0

/-- Splits an optional sign off the trimmed text: the sign and the rest. -/
def splitSign : List Char → Int × List Char
  | '-' :: rest => (-1, rest)
  | '+' :: rest => (1, rest)
  | S => (1, S)

/-- The call `Number.parseInt(input, 10)`: skip leading white space, read an optional sign,
take the longest run of decimal digits; `NaN` when that run is empty, else the Number value
of the signed digit run.  What follows the digits is ignored.  (ECMAScript allows an
implementation to read the digits after the 20th as zeros; the run is read exactly here.) -/
def parseInt (input : Option String) : JSNumber :=
  let S := (toStringArg input).toList.dropWhile isStrWhiteSpaceChar
  let (sign, S) := splitSign S
  let Z := S.takeWhile isDecimalDigit
  if Z.isEmpty then JSNumber.nan else JSNumber.ofInt (sign * (digitsValue Z : Int))

/-- Source lines 78-80: `Number.isInteger(num) && num >= min && num <= max`, with the
defaults `min = 0` and `max = Infinity` (`none`).  `Number.isInteger` is false of `NaN` and
of the infinities. -/
def validateInteger (num : JSNumber) (min : Int := 0) (max : Option Int := none) : Bool :=
  match num with
  | JSNumber.nan => false
  | JSNumber.inf _ => false
  | JSNumber.int n =>
    decide (min ≤ n) &&
      (match max with
       | none => true
       | some m => decide (n ≤ m))

/-- The text a template literal inserts for an integer number: its decimal digits below
`2^53`, the host's text from there on. -/
def numberToString (host : Host) (n : Int) : String :=
  if n.natAbs < 2 ^ 53 then toString n else host.largeNumberText n

/-! ## Helper functions of the script -/

/-- Source lines 82-87. -/
def formatProduct (host : Host) (product : Product) (quantity : Option Int := none) :
    String :=
  match quantity with
  | some q =>
    product.title ++ " — " ++ numberToString host q ++ "x" ++
      host.formatPrice (JSNumber.int product.price) ++ " samtals " ++
      host.formatPrice (JSNumber.mul (JSNumber.int product.price) (JSNumber.int q))
  | none => product.title ++ " — " ++ host.formatPrice (JSNumber.int product.price)

/-- The `reduce` of source line 91. -/
def cartTotal (cart : Cart) : JSNumber :=
  cart.lines.foldl
    (fun acc line =>
      JSNumber.add acc (JSNumber.mul (JSNumber.int line.product.price) (JSNumber.int line.quantity)))
    (JSNumber.int 0)

/-- Source lines 89-93. -/
def cartInfo (host : Host) (cart : Cart) : String :=
  let lines :=
    String.intercalate "\n"
      (cart.lines.map fun line => formatProduct host line.product (some line.quantity))
  let total := cartTotal cart
  lines ++ "\nSamtals: " ++ host.formatPrice total

/-! ## Operations -/

/-- Source lines 97-101. -/
def showProducts (host : Host) (s : State) : State × List Console :=
  (s, s.products.map fun product =>
    Console.info ("#" ++ numberToString host product.id ++ " " ++ formatProduct host product))

/-- Source lines 103-167.  Past the three emptiness checks `title` and `description` are
strings, which `toStringArg` returns as they are. -/
def addProduct (host : Host) (s : State) (title description priceAsString : Option String) :
    State × List Console :=
  if falsy title then (s, [Console.error "Titill má ekki vera tómur."])
  else if falsy description then (s, [Console.error "Lýsing má ekki vera tóm."])
  else if falsy priceAsString then (s, [Console.error "Verð má ekki vera tómt."])
  else
    let price := parseInt priceAsString
    match price, validateInteger price 1 with
    | JSNumber.int price, true =>
      let id : Int := s.products.length + 1
      let product : Product :=
        { id := id, title := toStringArg title, description := toStringArg description,
          price := price }
      ({ products := s.products ++ [product],
         cart := { s.cart with lines := s.cart.lines ++ [{ product := product, quantity := 1 }] } },
       [Console.info ("Vöru bætt við:\n" ++ formatProduct host product)])
    | _, _ => (s, [Console.error "Verð verður að vera jákvæð heiltala."])

/-- The statement `line.quantity += quantity` on the line `cart.lines.find(...)` returned:
the first line whose product has the given id. -/
def addQuantity (id quantity : Int) : List CartLine → List CartLine
  | [] => []
  | l :: ls =>
    if l.product.id = id then { l with quantity := l.quantity + quantity } :: ls
    else l :: addQuantity id quantity ls

/-- Source lines 169-198. -/
def addProductToCart (s : State) (idAsString quantityAsString : Option String) :
    State × List Console :=
  let id := parseInt idAsString
  match id, validateInteger id 1 with
  | JSNumber.int id, true =>
    match s.products.find? (fun p => decide (p.id = id)) with
    | none => (s, [Console.error "Vara fannst ekki."])
    | some product =>
      let quantity := parseInt quantityAsString
      match quantity, validateInteger quantity 1 (some 99) with
      | JSNumber.int quantity, true =>
        match s.cart.lines.find? (fun l => decide (l.product.id = product.id)) with
        | some _ =>
          ({ s with cart := { s.cart with lines := addQuantity product.id quantity s.cart.lines } },
           [])
        | none =>
          ({ s with cart :=
              { s.cart with lines := s.cart.lines ++ [{ product := product, quantity := quantity }] } },
           [])
      | _, _ => (s, [Console.error "Fjöldi er ekki löglegur, lágmark 1 og hámark 99."])
  | _, _ => (s, [Console.error "Verð verður að vera jákvæð heiltala."])

/-- Source lines 200-206. -/
def showCart (host : Host) (s : State) : State × List Console :=
  if s.cart.lines.length = 0 then (s, [Console.info "Karfan er tóm."])
  else (s, [Console.info (cartInfo host s.cart)])

/-- Source lines 208-230. -/
def checkout (host : Host) (s : State) (name address : Option String) :
    State × List Console :=
  if s.cart.lines.length = 0 then (s, [Console.error "Karfan er tóm."])
  else if falsy name then (s, [Console.error "Þarf að gefa upp nafn."])
  else if falsy address then (s, [Console.error "Þarf að gefa upp heimilisfang."])
  else
    let cart : Cart := { s.cart with name := name, address := address }
    ({ s with cart := cart },
     [Console.info ("Pöntun móttekin " ++ toStringArg name ++ ".\nVörur verða sendar á " ++
        toStringArg address ++ ".\n\n" ++ cartInfo host cart)])

/-! ## Definitions used to state the properties -/

/-- A stand-in for the host, used where a concrete run is evaluated: prices are written as
the number followed by `kr.`, large integers with all their digits. -/
def plainHost : Host where
  formatPrice x :=
    match x with
    | JSNumber.nan => "NaN kr."
    | JSNumber.int n => toString n ++ " kr."
    | JSNumber.inf false => "∞ kr."
    | JSNumber.inf true => "-∞ kr."
  largeNumberText n := toString n

/-- An answer of 401 digits `9`, a value beyond the range of doubles. -/
def hugeDigits : String := String.mk (List.replicate 401 '9')

/-- The state after a product priced "9007199254740991" (`2^53 - 1`) is added to the initial
state: the catalog has product 4 and the cart one line for it with quantity 1. -/
def bigPriceStart : State :=
  (addProduct plainHost initial (some "Bolur") (some "Stuttermabolur")
    (some "9007199254740991")).1

/-- The state after two more of product 4 are added to the cart of `bigPriceStart`: one line
with quantity 3. -/
def bigPriceState : State :=
  (addProductToCart bigPriceStart (some "4") (some "2")).1

/-- The state after a second product, priced "1", is added to `bigPriceStart`: the cart
holds one of product 4 and one of product 5, and its total is `2^53`. -/
def bigPriceTwoLines : State :=
  (addProduct plainHost bigPriceStart (some "Húfa") (some "Hlý húfa") (some "1")).1

/-- The sum over the cart lines of `price * quantity` as a mathematical integer, without
the rounding of double arithmetic. -/
def exactTotal (cart : Cart) : Int :=
  (cart.lines.map fun l => l.product.price * l.quantity).sum

/-- The line `cart.lines.find(l => l.product.id === id)` returns, `none` for `undefined`. -/
def findLine (id : Int) (lines : List CartLine) : Option CartLine :=
  lines.find? (fun l => decide (l.product.id = id))

/-- The quantity the cart holds for a product id: that of the first line for it, `0` when
there is no such line. -/
def quantityOf (id : Int) (lines : List CartLine) : Int :=
  match findLine id lines with
  | some l => l.quantity
  | none => 0

/-- The number of cart lines whose product has the given id. -/
def lineCount (id : Int) (lines : List CartLine) : Nat :=
  lines.countP (fun l => decide (l.product.id = id))

/-- The states the script can be in: the initial one and the results of `addProduct`,
`addProductToCart` and `checkout` with arbitrary prompt answers. -/
inductive Reachable (host : Host) : State → Prop where
  | start : Reachable host initial
  | afterAddProduct (s : State) (title description priceAsString : Option String) :
      Reachable host s → Reachable host (addProduct host s title description priceAsString).1
  | afterAddProductToCart (s : State) (idAsString quantityAsString : Option String) :
      Reachable host s → Reachable host (addProductToCart s idAsString quantityAsString).1
  | afterCheckout (s : State) (name address : Option String) :
      Reachable host s → Reachable host (checkout host s name address).1

/-- The invariant the operations maintain. -/
structure Inv (s : State) : Prop where
  ids : s.products.map (fun p => p.id) =
    (List.range s.products.length).map (fun i : Nat => (i : Int) + 1)
  prices : ∀ p ∈ s.products, 1 ≤ p.price
  lineProducts : ∀ l ∈ s.cart.lines, l.product ∈ s.products
  lineNodup : (s.cart.lines.map (fun l => l.product.id)).Nodup
  quantities : ∀ l ∈ s.cart.lines, 1 ≤ l.quantity

/-! ## Basic facts about the primitives -/

theorem falsy_some_iff (t : String) : falsy (some t) = true ↔ t = "" := by
  simp [falsy, String.isEmpty_iff]

theorem falsy_some_of_ne {t : String} (h : t ≠ "") : falsy (some t) = false := by
  cases hf : falsy (some t) with
  | false => rfl
  | true => exact absurd ((falsy_some_iff t).1 hf) h

theorem parseInt_of_falsy {x : Option String} (h : falsy x = true) : parseInt x = JSNumber.nan := by
  cases x with
  | none => decide
  | some t =>
    have ht : t = "" := (falsy_some_iff t).1 h
    subst ht
    decide

theorem falsy_of_parseInt_int {x : Option String} {n : Int} (h : parseInt x = JSNumber.int n) :
    falsy x = false := by
  cases hf : falsy x with
  | false => rfl
  | true => rw [parseInt_of_falsy hf] at h; cases h

theorem parseInt_rounds :
    parseInt (some "9007199254740993") = JSNumber.int 9007199254740992 := by decide

theorem parseInt_overflows : parseInt (some hugeDigits) = JSNumber.inf false := by decide

theorem validateInteger_min_iff (num : JSNumber) (min : Int) :
    validateInteger num min = true ↔ ∃ n, num = JSNumber.int n ∧ min ≤ n := by
  cases num with
  | nan => simp [validateInteger]
  | inf t => simp [validateInteger]
  | int n => simp [validateInteger]

theorem validateInteger_range_iff (num : JSNumber) (min max : Int) :
    validateInteger num min (some max) = true ↔ ∃ n, num = JSNumber.int n ∧ min ≤ n ∧ n ≤ max := by
  cases num with
  | nan => simp [validateInteger]
  | inf t => simp [validateInteger]
  | int n => simp [validateInteger]

/-! ## `addProduct` -/

theorem addProduct_accept (host : Host) (s : State) (title description : String)
    (priceAsString : Option String) (price : Int)
    (ht : title ≠ "") (hd : description ≠ "")
    (hp : parseInt priceAsString = JSNumber.int price) (h1 : 1 ≤ price) :
    addProduct host s (some title) (some description) priceAsString =
      ({ products := s.products ++
            [{ id := s.products.length + 1, title := title, description := description,
               price := price }],
         cart :=
          { lines := s.cart.lines ++
              [{ product :=
                  { id := s.products.length + 1, title := title, description := description,
                    price := price },
                 quantity := 1 }],
            name := s.cart.name, address := s.cart.address } },
       [Console.info ("Vöru bætt við:\n" ++
          formatProduct host
            { id := s.products.length + 1, title := title, description := description,
              price := price })]) := by
  have hv : validateInteger (JSNumber.int price) 1 = true :=
    (validateInteger_min_iff _ _).2 ⟨price, rfl, h1⟩
  simp [addProduct, falsy_some_of_ne ht, falsy_some_of_ne hd, falsy_of_parseInt_int hp, hp, hv,
    toStringArg]

theorem addProduct_reject_price (host : Host) (s : State) (title description : String)
    (priceAsString : Option String) (ht : title ≠ "") (hd : description ≠ "")
    (hp : validateInteger (parseInt priceAsString) 1 = false) :
    addProduct host s (some title) (some description) priceAsString =
      (s, [Console.error
        (if falsy priceAsString then "Verð má ekki vera tómt."
         else "Verð verður að vera jákvæð heiltala.")]) := by
  cases hf : falsy priceAsString with
  | true => simp [addProduct, falsy_some_of_ne ht, falsy_some_of_ne hd, hf]
  | false =>
    simp only [addProduct, falsy_some_of_ne ht, falsy_some_of_ne hd, hf, hp]
    cases parseInt priceAsString <;> simp

/-- C1: for every state, every non-empty title and description and every price text that
parses to an integer `price ≥ 1`, `addProduct` appends the product
`{id = old catalog size + 1, title, description, price}` at the end of the catalog (whose
size grows by exactly 1) and appends one cart line for that product with quantity 1 at the end
of the cart; the earlier catalog entries and cart lines, and the cart's name and address, are
unchanged. -/
theorem addProduct_success (host : Host) (s : State) (title description priceText : String)
    (price : Int) (ht : title ≠ "") (hd : description ≠ "")
    (hp : parseInt (some priceText) = JSNumber.int price) (h1 : 1 ≤ price) :
    (addProduct host s (some title) (some description) (some priceText)).1.products =
        s.products ++ [{ id := s.products.length + 1, title := title,
                         description := description, price := price }] ∧
      (addProduct host s (some title) (some description) (some priceText)).1.products.length =
        s.products.length + 1 ∧
      (addProduct host s (some title) (some description) (some priceText)).1.cart.lines =
        s.cart.lines ++ [{ product := { id := s.products.length + 1, title := title,
                                        description := description, price := price },
                           quantity := 1 }] ∧
      (addProduct host s (some title) (some description) (some priceText)).1.cart.name =
        s.cart.name ∧
      (addProduct host s (some title) (some description) (some priceText)).1.cart.address =
        s.cart.address ∧
      (addProduct host s (some title) (some description) (some priceText)).2 =
        [Console.info ("Vöru bætt við:\n" ++
          formatProduct host
            { id := s.products.length + 1, title := title, description := description,
              price := price })] := by
  rw [addProduct_accept host s title description (some priceText) price ht hd hp h1]
  simp

/-- Witness of C1: adding the product "Bolur" priced "1500" to the initial state; and priced
"9007199254740993", which parses to the double 9007199254740992. -/
theorem addProduct_success_witness :
    (("Bolur" ≠ "" ∧ "Stuttermabolur" ≠ "" ∧ parseInt (some "1500") = JSNumber.int 1500 ∧
        (1 : Int) ≤ 1500) ∧
      (addProduct plainHost initial (some "Bolur") (some "Stuttermabolur")
          (some "1500")).1.products =
        initial.products ++
          [{ id := 4, title := "Bolur", description := "Stuttermabolur", price := 1500 }]) ∧
    ((parseInt (some "9007199254740993") = JSNumber.int 9007199254740992 ∧
        (1 : Int) ≤ 9007199254740992) ∧
      (addProduct plainHost initial (some "Bolur") (some "Stuttermabolur")
          (some "9007199254740993")).1.products =
        initial.products ++
          [{ id := 4, title := "Bolur", description := "Stuttermabolur",
             price := 9007199254740992 }]) :=
  ⟨⟨⟨by decide, by decide, by decide, by decide⟩,
    (addProduct_success plainHost initial "Bolur" "Stuttermabolur" "1500" 1500
      (by decide) (by decide) (by decide) (by decide)).1⟩,
   ⟨⟨by decide, by decide⟩,
    (addProduct_success plainHost initial "Bolur" "Stuttermabolur" "9007199254740993"
      9007199254740992 (by decide) (by decide) (by decide) (by decide)).1⟩⟩

/-- Counterexample to C2 as stated: the non-integer price text "12.5" is accepted; the product
is added to the catalog and to the cart with price 12. -/
theorem addProduct_accepts_fractional_text :
    addProduct plainHost initial (some "Bolur") (some "Stuttermabolur") (some "12.5") =
      ({ products := initial.products ++
            [{ id := 4, title := "Bolur", description := "Stuttermabolur", price := 12 }],
         cart := { lines := [{ product := { id := 4, title := "Bolur",
                                            description := "Stuttermabolur", price := 12 },
                               quantity := 1 }],
                   name := none, address := none } },
       [Console.info "Vöru bætt við:\nBolur — 12 kr."]) := by
  decide

/-- C2 (amended): for every state, every non-empty title and description, and every price
answer that is empty or whose `parseInt` value is not an integer `≥ 1` (it is `NaN`, zero,
negative, or `Infinity` for a digit run beyond the range of doubles), `addProduct` leaves the
catalog and the cart unchanged and reports one validation error: the empty-price error for an
empty answer, the positive-integer error otherwise. -/
theorem addProduct_rejects_invalid_price (host : Host) (s : State)
    (title description : String) (priceAsString : Option String)
    (ht : title ≠ "") (hd : description ≠ "")
    (hp : validateInteger (parseInt priceAsString) 1 = false) :
    (addProduct host s (some title) (some description) priceAsString).1 = s ∧
      (addProduct host s (some title) (some description) priceAsString).2 =
        [Console.error
          (if falsy priceAsString then "Verð má ekki vera tómt."
           else "Verð verður að vera jákvæð heiltala.")] := by
  rw [addProduct_reject_price host s title description priceAsString ht hd hp]
  exact ⟨rfl, rfl⟩

/-- Witness of C2 (amended): the price texts "abc", "0", "-5" and a run of 401 digits are
rejected. -/
theorem addProduct_rejects_invalid_price_witness :
    ("Bolur" ≠ "" ∧ "Stuttermabolur" ≠ "") ∧
    (validateInteger (parseInt (some "abc")) 1 = false ∧
      (addProduct plainHost initial (some "Bolur") (some "Stuttermabolur") (some "abc")).1 =
        initial) ∧
    (validateInteger (parseInt (some "0")) 1 = false ∧
      (addProduct plainHost initial (some "Bolur") (some "Stuttermabolur") (some "0")).1 =
        initial) ∧
    (validateInteger (parseInt (some "-5")) 1 = false ∧
      (addProduct plainHost initial (some "Bolur") (some "Stuttermabolur") (some "-5")).1 =
        initial) ∧
    (validateInteger (parseInt (some hugeDigits)) 1 = false ∧
      (addProduct plainHost initial (some "Bolur") (some "Stuttermabolur")
        (some hugeDigits)).1 = initial) :=
  ⟨⟨by decide, by decide⟩,
   ⟨by decide, (addProduct_rejects_invalid_price plainHost initial "Bolur" "Stuttermabolur"
      (some "abc") (by decide) (by decide) (by decide)).1⟩,
   ⟨by decide, (addProduct_rejects_invalid_price plainHost initial "Bolur" "Stuttermabolur"
      (some "0") (by decide) (by decide) (by decide)).1⟩,
   ⟨by decide, (addProduct_rejects_invalid_price plainHost initial "Bolur" "Stuttermabolur"
      (some "-5") (by decide) (by decide) (by decide)).1⟩,
   ⟨by decide, (addProduct_rejects_invalid_price plainHost initial "Bolur" "Stuttermabolur"
      (some hugeDigits) (by decide) (by decide) (by decide)).1⟩⟩

/-! ## `addProductToCart` -/

theorem length_addQuantity (id q : Int) (ls : List CartLine) :
    (addQuantity id q ls).length = ls.length := by
  induction ls with
  | nil => rfl
  | cons l ls ih =>
    by_cases h : l.product.id = id <;> simp [addQuantity, h, ih]

theorem map_product_addQuantity (id q : Int) (ls : List CartLine) :
    (addQuantity id q ls).map (fun l => l.product) = ls.map (fun l => l.product) := by
  induction ls with
  | nil => rfl
  | cons l ls ih =>
    by_cases h : l.product.id = id <;> simp [addQuantity, h, ih]

theorem lineCount_eq_map (id : Int) (ls : List CartLine) :
    lineCount id ls = (ls.map (fun l => l.product)).countP (fun p => decide (p.id = id)) := by
  induction ls with
  | nil => rfl
  | cons l ls ih =>
    unfold lineCount at ih ⊢
    by_cases h : l.product.id = id <;> simp [List.countP_cons, h, ih]

theorem lineCount_addQuantity (id id' q : Int) (ls : List CartLine) :
    lineCount id' (addQuantity id q ls) = lineCount id' ls := by
  rw [lineCount_eq_map, lineCount_eq_map, map_product_addQuantity]

theorem findLine_addQuantity (id q : Int) (ls : List CartLine) (l : CartLine)
    (h : findLine id ls = some l) :
    findLine id (addQuantity id q ls) = some { l with quantity := l.quantity + q } := by
  induction ls with
  | nil => simp [findLine] at h
  | cons a ls ih =>
    unfold findLine at h ih ⊢
    by_cases ha : a.product.id = id
    · simp [List.find?_cons, ha] at h
      subst h
      simp [addQuantity, List.find?_cons, ha]
    · simp [List.find?_cons, ha] at h
      simp [addQuantity, List.find?_cons, ha, ih h]

theorem addQuantity_append_of_none (id q : Int) (ls ms : List CartLine)
    (h : findLine id ls = none) :
    addQuantity id q (ls ++ ms) = ls ++ addQuantity id q ms := by
  induction ls with
  | nil => rfl
  | cons a ls ih =>
    unfold findLine at h ih
    by_cases ha : a.product.id = id
    · simp [List.find?_cons, ha] at h
    · simp [List.find?_cons, ha] at h
      have ih' := ih (by simpa using h)
      simp [addQuantity, ha, ih']

theorem findLine_append_of_none (id : Int) (ls ms : List CartLine) (h : findLine id ls = none) :
    findLine id (ls ++ ms) = findLine id ms := by
  unfold findLine at h ⊢
  rw [List.find?_append, h]
  rfl

theorem find?_id_eq {id : Int} {ps : List Product} {p : Product}
    (h : ps.find? (fun p => decide (p.id = id)) = some p) : p.id = id := by
  simpa using List.find?_some h

theorem find?_id_of_mem {id : Int} {ps : List Product} (h : ∃ p ∈ ps, p.id = id) :
    ∃ p, ps.find? (fun p => decide (p.id = id)) = some p := by
  cases hf : ps.find? (fun p => decide (p.id = id)) with
  | some p => exact ⟨p, rfl⟩
  | none =>
    obtain ⟨p, hp, hid⟩ := h
    have := List.find?_eq_none.1 hf p hp
    simp [hid] at this

theorem addProductToCart_invalid_id (s : State) (idAsString quantityAsString : Option String)
    (h : validateInteger (parseInt idAsString) 1 = false) :
    addProductToCart s idAsString quantityAsString =
      (s, [Console.error "Verð verður að vera jákvæð heiltala."]) := by
  simp only [addProductToCart, h]
  cases parseInt idAsString <;> simp

theorem addProductToCart_not_found (s : State) (idAsString quantityAsString : Option String)
    (id : Int) (hid : parseInt idAsString = JSNumber.int id) (h1 : 1 ≤ id)
    (hnone : s.products.find? (fun p => decide (p.id = id)) = none) :
    addProductToCart s idAsString quantityAsString = (s, [Console.error "Vara fannst ekki."]) := by
  have hv : validateInteger (JSNumber.int id) 1 = true :=
    (validateInteger_min_iff _ _).2 ⟨id, rfl, h1⟩
  simp [addProductToCart, hid, hv, hnone]

theorem addProductToCart_invalid_quantity (s : State) (idAsString quantityAsString : Option String)
    (id : Int) (product : Product) (hid : parseInt idAsString = JSNumber.int id) (h1 : 1 ≤ id)
    (hfind : s.products.find? (fun p => decide (p.id = id)) = some product)
    (hq : validateInteger (parseInt quantityAsString) 1 (some 99) = false) :
    addProductToCart s idAsString quantityAsString =
      (s, [Console.error "Fjöldi er ekki löglegur, lágmark 1 og hámark 99."]) := by
  have hv : validateInteger (JSNumber.int id) 1 = true :=
    (validateInteger_min_iff _ _).2 ⟨id, rfl, h1⟩
  simp only [addProductToCart, hid, hv, hfind, hq]
  cases parseInt quantityAsString <;> simp

theorem addProductToCart_accept (s : State) (idAsString quantityAsString : Option String)
    (id quantity : Int) (product : Product)
    (hid : parseInt idAsString = JSNumber.int id) (h1 : 1 ≤ id)
    (hfind : s.products.find? (fun p => decide (p.id = id)) = some product)
    (hq : parseInt quantityAsString = JSNumber.int quantity)
    (hq1 : 1 ≤ quantity) (hq99 : quantity ≤ 99) :
    addProductToCart s idAsString quantityAsString =
      ({ products := s.products,
         cart :=
          { lines :=
              if (findLine id s.cart.lines).isSome then addQuantity id quantity s.cart.lines
              else s.cart.lines ++ [{ product := product, quantity := quantity }],
            name := s.cart.name, address := s.cart.address } }, []) := by
  have hv : validateInteger (JSNumber.int id) 1 = true :=
    (validateInteger_min_iff _ _).2 ⟨id, rfl, h1⟩
  have hvq : validateInteger (JSNumber.int quantity) 1 (some 99) = true :=
    (validateInteger_range_iff _ _ _).2 ⟨quantity, rfl, hq1, hq99⟩
  have hpid : product.id = id := find?_id_eq hfind
  simp only [addProductToCart, hid, hv, hfind, hq, hvq, hpid, findLine]
  split
  · rename_i l hl
    simp [hl]
  · rename_i hl
    simp [hl]

/-- Counterexample to C3 as stated: the id answer "0" equals the id of no catalog product, yet
the error reported is the positive-integer validation error, not the product-not-found
error. -/
theorem addToCart_invalid_id_not_notFound :
    (∀ p ∈ initial.products, parseInt (some "0") ≠ JSNumber.int p.id) ∧
      addProductToCart initial (some "0") (some "1") =
        (initial, [Console.error "Verð verður að vera jákvæð heiltala."]) ∧
      (addProductToCart initial (some "0") (some "1")).2 ≠ [Console.error "Vara fannst ekki."] := by
  decide

/-- C3 (amended): for every state, every id answer whose `parseInt` value is the id of no
catalog product, and every quantity answer, `addProductToCart` leaves the cart and the catalog
unchanged and reports exactly one error; that error is the product-not-found error
("Vara fannst ekki.") exactly when the id answer parses to an integer `≥ 1`, and a validation
error otherwise. -/
theorem addToCart_unknown_id (s : State) (idAsString quantityAsString : Option String)
    (h : ∀ p ∈ s.products, parseInt idAsString ≠ JSNumber.int p.id) :
    (addProductToCart s idAsString quantityAsString).1 = s ∧
      ∃ msg, (addProductToCart s idAsString quantityAsString).2 = [Console.error msg] ∧
        (msg = "Vara fannst ekki." ↔ validateInteger (parseInt idAsString) 1 = true) := by
  cases hv : validateInteger (parseInt idAsString) 1 with
  | false =>
    rw [addProductToCart_invalid_id s idAsString quantityAsString hv]
    exact ⟨rfl, _, rfl, by decide⟩
  | true =>
    obtain ⟨id, hid, h1⟩ := (validateInteger_min_iff _ _).1 hv
    have hnone : s.products.find? (fun p => decide (p.id = id)) = none := by
      apply List.find?_eq_none.2
      intro p hp
      have := h p hp
      rw [hid] at this
      simpa using fun hc => this (by rw [hc])
    rw [addProductToCart_not_found s idAsString quantityAsString id hid h1 hnone]
    exact ⟨rfl, _, rfl, by simp⟩

/-- Witness of C3 (amended): the id answer "7" in the initial state, whose ids are 1, 2, 3,
gets the product-not-found error; an id answer of 401 digits, which parses to `Infinity`,
gets the validation error. -/
theorem addToCart_unknown_id_witness :
    ((∀ p ∈ initial.products, parseInt (some "7") ≠ JSNumber.int p.id) ∧
      (addProductToCart initial (some "7") (some "1")).1 = initial ∧
      (addProductToCart initial (some "7") (some "1")).2 =
        [Console.error "Vara fannst ekki."]) ∧
    ((∀ p ∈ initial.products, parseInt (some hugeDigits) ≠ JSNumber.int p.id) ∧
      (addProductToCart initial (some hugeDigits) (some "1")).1 = initial ∧
      (addProductToCart initial (some hugeDigits) (some "1")).2 =
        [Console.error "Verð verður að vera jákvæð heiltala."]) :=
  ⟨⟨by decide, (addToCart_unknown_id initial (some "7") (some "1") (by decide)).1, by decide⟩,
   ⟨by decide, (addToCart_unknown_id initial (some hugeDigits) (some "1") (by decide)).1,
    by decide⟩⟩

/-- C4: for every state, every id `≥ 1` of a catalog product and all `q1`, `q2` in `[1,99]`,
two successive `addProductToCart` calls for that id both succeed, leave the catalog alone, and
do not create a second line: the second call changes neither the number of cart lines nor the
number of lines for that product, and the first line for the product ends with its quantity
before the two calls (0 without a line) plus `q1 + q2`, unclamped.  When the product had no
line, the line is appended at the end of the cart, after the unchanged earlier lines. -/
theorem addToCart_accumulates (s s1 s2 : State) (idText q1Text q2Text : Option String)
    (id q1 q2 : Int)
    (hid : parseInt idText = JSNumber.int id) (hpos : 1 ≤ id)
    (hmem : ∃ p ∈ s.products, p.id = id)
    (hq1 : parseInt q1Text = JSNumber.int q1) (h1 : 1 ≤ q1 ∧ q1 ≤ 99)
    (hq2 : parseInt q2Text = JSNumber.int q2) (h2 : 1 ≤ q2 ∧ q2 ≤ 99)
    (hs1 : s1 = (addProductToCart s idText q1Text).1)
    (hs2 : s2 = (addProductToCart s1 idText q2Text).1) :
    (addProductToCart s idText q1Text).2 = [] ∧ (addProductToCart s1 idText q2Text).2 = [] ∧
      s1.products = s.products ∧ s2.products = s.products ∧
      s2.cart.lines.length = s1.cart.lines.length ∧
      lineCount id s2.cart.lines = lineCount id s1.cart.lines ∧
      (findLine id s2.cart.lines).map (fun l => l.quantity) =
        some (quantityOf id s.cart.lines + q1 + q2) ∧
      (findLine id s.cart.lines = none →
        ∃ product, s.products.find? (fun p => decide (p.id = id)) = some product ∧
          s1.cart.lines = s.cart.lines ++ [{ product := product, quantity := q1 }] ∧
          s2.cart.lines = s.cart.lines ++ [{ product := product, quantity := q1 + q2 }]) := by
  obtain ⟨product, hfind⟩ := find?_id_of_mem hmem
  have hpid : product.id = id := find?_id_eq hfind
  have e1 := addProductToCart_accept s idText q1Text id q1 product hid hpos hfind hq1 h1.1 h1.2
  rw [e1] at hs1
  have hfind1 : s1.products.find? (fun p => decide (p.id = id)) = some product := by
    rw [hs1]; exact hfind
  have e2 := addProductToCart_accept s1 idText q2Text id q2 product hid hpos hfind1 hq2 h2.1 h2.2
  rw [e2] at hs2
  refine ⟨by rw [e1], by rw [e2], by rw [hs1], by rw [hs2, hs1], ?_⟩
  cases hl : findLine id s.cart.lines with
  | some l =>
    have hl1 : s1.cart.lines = addQuantity id q1 s.cart.lines := by rw [hs1]; simp [hl]
    have hf1 : findLine id s1.cart.lines = some { l with quantity := l.quantity + q1 } := by
      rw [hl1]; exact findLine_addQuantity id q1 _ l hl
    have hl2 : s2.cart.lines = addQuantity id q2 s1.cart.lines := by rw [hs2]; simp [hf1]
    refine ⟨?_, ?_, ?_, ?_⟩
    · rw [hl2, length_addQuantity]
    · rw [hl2, lineCount_addQuantity]
    · rw [hl2, findLine_addQuantity id q2 _ _ hf1]
      simp [quantityOf, hl]
    · intro hc; cases hc
  | none =>
    have hl1 : s1.cart.lines = s.cart.lines ++ [{ product := product, quantity := q1 }] := by
      rw [hs1]; simp [hl]
    have hf1 : findLine id s1.cart.lines = some { product := product, quantity := q1 } := by
      rw [hl1, findLine_append_of_none id _ _ hl]
      simp [findLine, hpid]
    have hl2 : s2.cart.lines = s.cart.lines ++ [{ product := product, quantity := q1 + q2 }] := by
      rw [hs2]
      simp only [hf1, Option.isSome_some, if_true]
      rw [hl1, addQuantity_append_of_none id q2 _ _ hl]
      simp [addQuantity, hpid]
    refine ⟨?_, ?_, ?_, ?_⟩
    · rw [hl2, hl1]; simp
    · rw [hl2, hl1]; simp [lineCount, hpid]
    · have hq0 : quantityOf id s.cart.lines = 0 := by simp [quantityOf, hl]
      rw [hl2, findLine_append_of_none id _ _ hl, hq0]
      simp [findLine, hpid]
    · intro _
      exact ⟨product, hfind, hl1, hl2⟩

/-- Witness of C4: product 1 is added to the empty initial cart with quantity 2 and then 3;
the cart ends with one line of quantity 5. -/
theorem addToCart_accumulates_witness :
    (parseInt (some "1") = JSNumber.int 1 ∧ (1 : Int) ≤ 1 ∧
      (∃ p ∈ initial.products, p.id = 1) ∧
      parseInt (some "2") = JSNumber.int 2 ∧ ((1 : Int) ≤ 2 ∧ (2 : Int) ≤ 99) ∧
      parseInt (some "3") = JSNumber.int 3 ∧ ((1 : Int) ≤ 3 ∧ (3 : Int) ≤ 99)) ∧
    (findLine 1
        (addProductToCart (addProductToCart initial (some "1") (some "2")).1
          (some "1") (some "3")).1.cart.lines).map (fun l => l.quantity) =
      some (quantityOf 1 initial.cart.lines + 2 + 3) :=
  ⟨⟨by decide, by decide, by decide, by decide, by decide, by decide, by decide⟩,
   (addToCart_accumulates initial (addProductToCart initial (some "1") (some "2")).1
      (addProductToCart (addProductToCart initial (some "1") (some "2")).1
        (some "1") (some "3")).1
      (some "1") (some "2") (some "3") 1 2 3
      (by decide) (by decide) (by decide) (by decide) (by decide) (by decide) (by decide)
      rfl rfl).2.2.2.2.2.2.1⟩

/-! ## `cartInfo` and `checkout` -/

theorem roundNat_of_lt {n : Nat} (h : n < 2 ^ 53) : roundNat n = some n := by
  unfold roundNat
  rw [if_pos h]

theorem ofInt_of_natAbs_lt {z : Int} (h : z.natAbs < 2 ^ 53) :
    JSNumber.ofInt z = JSNumber.int z := by
  unfold JSNumber.ofInt
  rw [roundNat_of_lt h]
  by_cases hz : z < 0
  · simp only [hz, if_true]
    congr 1
    omega
  · simp only [hz, if_false]
    congr 1
    omega

theorem ofInt_of_nonneg_lt {z : Int} (h0 : 0 ≤ z) (h : z < 2 ^ 53) :
    JSNumber.ofInt z = JSNumber.int z :=
  ofInt_of_natAbs_lt (by omega)

theorem sum_total_nonneg (ls : List CartLine)
    (hnn : ∀ l ∈ ls, 0 ≤ l.product.price ∧ 0 ≤ l.quantity) :
    0 ≤ (ls.map fun l => l.product.price * l.quantity).sum := by
  induction ls with
  | nil => simp
  | cons l ls ih =>
    have hl := hnn l (List.mem_cons_self _ _)
    have ht := ih (fun x hx => hnn x (List.mem_cons_of_mem _ hx))
    have hm : 0 ≤ l.product.price * l.quantity := mul_nonneg hl.1 hl.2
    simp only [List.map_cons, List.sum_cons]
    omega

theorem foldl_total_exact (ls : List CartLine) (acc : Int) (h0 : 0 ≤ acc)
    (hnn : ∀ l ∈ ls, 0 ≤ l.product.price ∧ 0 ≤ l.quantity)
    (hb : acc + (ls.map fun l => l.product.price * l.quantity).sum < 2 ^ 53) :
    ls.foldl
        (fun acc line =>
          JSNumber.add acc
            (JSNumber.mul (JSNumber.int line.product.price) (JSNumber.int line.quantity)))
        (JSNumber.int acc) =
      JSNumber.int (acc + (ls.map fun l => l.product.price * l.quantity).sum) := by
  induction ls generalizing acc with
  | nil => simp
  | cons l ls ih =>
    have hl := hnn l (List.mem_cons_self _ _)
    have hrest := sum_total_nonneg ls (fun x hx => hnn x (List.mem_cons_of_mem _ hx))
    have hm : 0 ≤ l.product.price * l.quantity := mul_nonneg hl.1 hl.2
    simp only [List.map_cons, List.sum_cons] at hb
    have e1 : JSNumber.mul (JSNumber.int l.product.price) (JSNumber.int l.quantity) =
        JSNumber.int (l.product.price * l.quantity) := by
      show JSNumber.ofInt _ = _
      exact ofInt_of_nonneg_lt hm (by omega)
    have e2 : JSNumber.add (JSNumber.int acc) (JSNumber.int (l.product.price * l.quantity)) =
        JSNumber.int (acc + l.product.price * l.quantity) := by
      show JSNumber.ofInt _ = _
      exact ofInt_of_nonneg_lt (by omega) (by omega)
    simp only [List.foldl_cons, List.map_cons, List.sum_cons, e1, e2]
    rw [ih (acc + l.product.price * l.quantity) (by omega)
      (fun x hx => hnn x (List.mem_cons_of_mem _ hx)) (by omega)]
    congr 1
    omega

theorem cartTotal_exact (c : Cart)
    (hnn : ∀ l ∈ c.lines, 0 ≤ l.product.price ∧ 0 ≤ l.quantity)
    (hb : exactTotal c < 2 ^ 53) : cartTotal c = JSNumber.int (exactTotal c) := by
  have h := foldl_total_exact c.lines 0 (le_refl 0) hnn (by simpa [exactTotal] using hb)
  simpa [cartTotal, exactTotal] using h

theorem checkout_accept (host : Host) (s : State) (name address : String)
    (hl : s.cart.lines ≠ []) (hn : name ≠ "") (ha : address ≠ "") :
    checkout host s (some name) (some address) =
      ({ products := s.products,
         cart := { lines := s.cart.lines, name := some name, address := some address } },
       [Console.info ("Pöntun móttekin " ++ name ++ ".\nVörur verða sendar á " ++ address ++
          ".\n\n" ++ cartInfo host s.cart)]) := by
  have hlen : s.cart.lines.length ≠ 0 := by simpa using hl
  simp [checkout, hlen, falsy_some_of_ne hn, falsy_some_of_ne ha, toStringArg, cartInfo, cartTotal]

theorem checkout_reject (host : Host) (s : State) (name address : Option String)
    (h : s.cart.lines = [] ∨ falsy name = true ∨ falsy address = true) :
    (checkout host s name address).1 = s ∧
      ∃ msg, (checkout host s name address).2 = [Console.error msg] := by
  unfold checkout
  by_cases hl : s.cart.lines.length = 0
  · simp [hl]
  · cases hn : falsy name with
    | true => simp [hl]
    | false =>
      cases ha : falsy address with
      | true => simp [hl]
      | false =>
        rcases h with h | h | h
        · simp [h] at hl
        · rw [hn] at h; cases h
        · rw [ha] at h; cases h

theorem checkout_info_of_good (host : Host) (s : State) (name address : Option String)
    (hl : s.cart.lines ≠ []) (hn : falsy name = false) (ha : falsy address = false) :
    ∃ msg, (checkout host s name address).2 = [Console.info msg] := by
  have hlen : s.cart.lines.length ≠ 0 := by simpa using hl
  simp [checkout, hlen, hn, ha]

/-- Counterexample to C5 as stated: in the reachable cart that holds three of a product
priced 9007199254740991 the total `cartInfo` formats is 27021597764222972, while the sum of
`price * quantity` is 27021597764222973. -/
theorem cartTotal_rounds :
    Reachable plainHost bigPriceState ∧
      bigPriceState.cart.lines.map (fun l => (l.product.price, l.quantity)) =
        [(9007199254740991, 3)] ∧
      cartTotal bigPriceState.cart = JSNumber.int 27021597764222972 ∧
      exactTotal bigPriceState.cart = 27021597764222973 ∧
      cartTotal bigPriceState.cart ≠ JSNumber.int (exactTotal bigPriceState.cart) ∧
      cartInfo plainHost bigPriceState.cart =
        "Bolur — 3x9007199254740991 kr. samtals 27021597764222972 kr.\n" ++
          "Samtals: 27021597764222972 kr." :=
  ⟨Reachable.afterAddProductToCart _ _ _ (Reachable.afterAddProduct _ _ _ _ Reachable.start),
   by decide, by decide, by decide, by decide, by decide⟩

/-- C5 (amended): the total `cartInfo` formats is the result of the script's `reduce`, which
adds `price * quantity` line by line in double arithmetic.  For a cart without negative
prices and quantities whose sum of `price * quantity` is below `2^53` it equals that sum,
which is 0 for a cart without lines; and from an empty cart, with a catalog that starts with
the products `{id: 1, price: 5000}` and `{id: 2, price: 3000}`, the calls
`addProductToCart("1", "2")` and `addProductToCart("2", "1")` give the total 13000. -/
theorem cartInfo_total (host : Host) (c : Cart) (t1 d1 t2 d2 : String)
    (rest : List Product) (name address : Option String)
    (hnn : ∀ l ∈ c.lines, 0 ≤ l.product.price ∧ 0 ≤ l.quantity)
    (hb : exactTotal c < 2 ^ 53) :
    cartInfo host c =
        String.intercalate "\n"
            (c.lines.map fun line => formatProduct host line.product (some line.quantity)) ++
          "\nSamtals: " ++ host.formatPrice (cartTotal c) ∧
      cartTotal c = JSNumber.int (c.lines.map fun l => l.product.price * l.quantity).sum ∧
      cartTotal { lines := [], name := name, address := address } = JSNumber.int 0 ∧
      cartTotal
          (addProductToCart
            (addProductToCart
              { products :=
                  { id := 1, title := t1, description := d1, price := 5000 } ::
                    { id := 2, title := t2, description := d2, price := 3000 } :: rest,
                cart := { lines := [], name := name, address := address } }
              (some "1") (some "2")).1
            (some "2") (some "1")).1.cart = JSNumber.int 13000 := by
  refine ⟨rfl, cartTotal_exact c hnn hb, rfl, ?_⟩
  have p1 : parseInt (some "1") = JSNumber.int 1 := by decide
  have p2 : parseInt (some "2") = JSNumber.int 2 := by decide
  rw [addProductToCart_accept _ (some "1") (some "2") 1 2
    { id := 1, title := t1, description := d1, price := 5000 } p1 (by decide) (by simp) p2
    (by decide) (by decide)]
  rw [addProductToCart_accept _ (some "2") (some "1") 2 1
    { id := 2, title := t2, description := d2, price := 3000 } p2 (by decide) (by simp) p1
    (by decide) (by decide)]
  have hex : cartTotal
      { lines :=
          [{ product := { id := 1, title := t1, description := d1, price := 5000 },
             quantity := 2 },
           { product := { id := 2, title := t2, description := d2, price := 3000 },
             quantity := 1 }],
        name := name, address := address } = JSNumber.int 13000 := by
    rw [cartTotal_exact _ (by simp) (by simp [exactTotal])]
    simp [exactTotal]
  simpa [findLine] using hex

/-- Witness of C5 (amended): the cart that holds two of product 1 totals 10000. -/
theorem cartInfo_total_witness :
    ((∀ l ∈ (addProductToCart initial (some "1") (some "2")).1.cart.lines,
        0 ≤ l.product.price ∧ 0 ≤ l.quantity) ∧
      exactTotal (addProductToCart initial (some "1") (some "2")).1.cart < 2 ^ 53) ∧
    cartTotal (addProductToCart initial (some "1") (some "2")).1.cart =
      JSNumber.int
        ((addProductToCart initial (some "1") (some "2")).1.cart.lines.map
          fun l => l.product.price * l.quantity).sum :=
  ⟨⟨by decide, by decide⟩,
   (cartInfo_total plainHost (addProductToCart initial (some "1") (some "2")).1.cart
      "" "" "" "" [] none none (by decide) (by decide)).2.1⟩

/-- C6: `checkout` reports a validation error and leaves `cart.name` and `cart.address` at
their previous values if and only if the cart has no lines, or the name answer is empty, or
the address answer is empty (a cancelled prompt counts as empty); then the whole state is
unchanged.  In particular `checkout("", address)` and `checkout(name, "")` fail and write
neither field. -/
theorem checkout_fails_iff (host : Host) (s : State) (name address : Option String) :
    (((∃ msg, (checkout host s name address).2 = [Console.error msg]) ∧
        (checkout host s name address).1.cart.name = s.cart.name ∧
        (checkout host s name address).1.cart.address = s.cart.address) ↔
      (s.cart.lines = [] ∨ falsy name = true ∨ falsy address = true)) ∧
    (((∃ msg, (checkout host s name address).2 = [Console.error msg]) ∧
        (checkout host s name address).1 = s) ↔
      (s.cart.lines = [] ∨ falsy name = true ∨ falsy address = true)) ∧
    ((checkout host s (some "") address).1 = s ∧
      ∃ msg, (checkout host s (some "") address).2 = [Console.error msg]) ∧
    ((checkout host s name (some "")).1 = s ∧
      ∃ msg, (checkout host s name (some "")).2 = [Console.error msg]) := by
  have key : (∃ msg, (checkout host s name address).2 = [Console.error msg]) →
      (s.cart.lines = [] ∨ falsy name = true ∨ falsy address = true) := by
    intro herr
    by_contra hbad
    simp only [not_or, Bool.not_eq_true] at hbad
    obtain ⟨m1, h1⟩ := herr
    obtain ⟨m2, h2⟩ := checkout_info_of_good host s name address hbad.1 hbad.2.1 hbad.2.2
    rw [h1] at h2
    simp at h2
  refine ⟨⟨fun h => key h.1, fun h => ?_⟩, ⟨fun h => key h.1, fun h => ?_⟩, ?_, ?_⟩
  · obtain ⟨hs, herr⟩ := checkout_reject host s name address h
    exact ⟨herr, by rw [hs], by rw [hs]⟩
  · obtain ⟨hs, herr⟩ := checkout_reject host s name address h
    exact ⟨herr, hs⟩
  · exact checkout_reject host s (some "") address (Or.inr (Or.inl (by decide)))
  · exact checkout_reject host s name (some "") (Or.inr (Or.inr (by decide)))

/-- Counterexample to C7 as stated: on the reachable cart that holds three of a product
priced 9007199254740991, whose sum of `price * quantity` is 27021597764222973, the
confirmation `checkout("Jón", "Einhver gata 1")` writes shows the total 27021597764222972. -/
theorem checkout_total_rounds :
    Reachable plainHost bigPriceState ∧
      bigPriceState.cart.lines ≠ [] ∧
      exactTotal bigPriceState.cart = 27021597764222973 ∧
      (checkout plainHost bigPriceState (some "Jón") (some "Einhver gata 1")).2 =
        [Console.info
          ("Pöntun móttekin Jón.\nVörur verða sendar á Einhver gata 1.\n\n" ++
            "Bolur — 3x9007199254740991 kr. samtals 27021597764222972 kr.\n" ++
            "Samtals: 27021597764222972 kr.")] ∧
      plainHost.formatPrice (cartTotal bigPriceState.cart) ≠
        plainHost.formatPrice (JSNumber.int (exactTotal bigPriceState.cart)) :=
  ⟨Reachable.afterAddProductToCart _ _ _ (Reachable.afterAddProduct _ _ _ _ Reachable.start),
   by decide, by decide, by decide, by decide⟩

/-- C7 (amended): with at least one cart line and a non-empty name and address, `checkout`
stores the name and the address on the cart (overwriting what was there), changes nothing
else, and writes one order confirmation made of the name, the address and the cart summary
`cartInfo` of the cart lines as they were before the call.  The total in that summary is the
one the script's `reduce` computes in double arithmetic; it is the sum of `price * quantity`
when no price or quantity is negative and that sum is below `2^53`. -/
theorem checkout_success (host : Host) (s : State) (name address : String)
    (hl : s.cart.lines ≠ []) (hn : name ≠ "") (ha : address ≠ "") :
    checkout host s (some name) (some address) =
        ({ products := s.products,
           cart := { lines := s.cart.lines, name := some name, address := some address } },
         [Console.info ("Pöntun móttekin " ++ name ++ ".\nVörur verða sendar á " ++ address ++
            ".\n\n" ++ cartInfo host s.cart)]) ∧
      cartInfo host s.cart =
        String.intercalate "\n"
            (s.cart.lines.map fun line => formatProduct host line.product (some line.quantity)) ++
          "\nSamtals: " ++ host.formatPrice (cartTotal s.cart) ∧
      ((∀ l ∈ s.cart.lines, 0 ≤ l.product.price ∧ 0 ≤ l.quantity) →
        exactTotal s.cart < 2 ^ 53 →
        cartTotal s.cart =
          JSNumber.int (s.cart.lines.map fun l => l.product.price * l.quantity).sum) :=
  ⟨checkout_accept host s name address hl hn ha, rfl, fun hnn hb => cartTotal_exact s.cart hnn hb⟩

/-- Witness of C7 (amended): `checkout("Jón", "Einhver gata 1")` on the cart that holds two of
product 1. -/
theorem checkout_success_witness :
    ((addProductToCart initial (some "1") (some "2")).1.cart.lines ≠ [] ∧ "Jón" ≠ "" ∧
      "Einhver gata 1" ≠ "") ∧
    (checkout plainHost (addProductToCart initial (some "1") (some "2")).1
        (some "Jón") (some "Einhver gata 1")).1.cart =
      { lines := (addProductToCart initial (some "1") (some "2")).1.cart.lines,
        name := some "Jón", address := some "Einhver gata 1" } ∧
    cartTotal (addProductToCart initial (some "1") (some "2")).1.cart = JSNumber.int 10000 :=
  ⟨⟨by decide, by decide, by decide⟩,
   by rw [(checkout_success plainHost (addProductToCart initial (some "1") (some "2")).1
      "Jón" "Einhver gata 1" (by decide) (by decide) (by decide)).1],
   by decide⟩

/-! ## The invariant -/

theorem id_le_length_of_ids {ps : List Product}
    (h : ps.map (fun p => p.id) = (List.range ps.length).map (fun i : Nat => (i : Int) + 1))
    {p : Product} (hp : p ∈ ps) : 1 ≤ p.id ∧ p.id ≤ ps.length := by
  have hm : p.id ∈ ps.map (fun p => p.id) := List.mem_map.2 ⟨p, hp, rfl⟩
  rw [h] at hm
  obtain ⟨i, hi, hid⟩ := List.mem_map.1 hm
  have hlt : i < ps.length := List.mem_range.1 hi
  constructor <;> omega

theorem ids_append {ps : List Product}
    (h : ps.map (fun p => p.id) = (List.range ps.length).map (fun i : Nat => (i : Int) + 1))
    (p : Product) (hp : p.id = ps.length + 1) :
    (ps ++ [p]).map (fun p => p.id) =
      (List.range (ps ++ [p]).length).map (fun i : Nat => (i : Int) + 1) := by
  simp [List.range_succ, h, hp]

theorem inv_initial : Inv initial where
  ids := by decide
  prices := by decide
  lineProducts := by decide
  lineNodup := by decide
  quantities := by decide

theorem inv_congr {s t : State} (hp : t.products = s.products)
    (hl : t.cart.lines = s.cart.lines) (h : Inv s) : Inv t where
  ids := by rw [hp]; exact h.ids
  prices := by rw [hp]; exact h.prices
  lineProducts := by rw [hp, hl]; exact h.lineProducts
  lineNodup := by rw [hl]; exact h.lineNodup
  quantities := by rw [hl]; exact h.quantities

theorem addProduct_cases (host : Host) (s : State)
    (title description priceAsString : Option String) :
    (addProduct host s title description priceAsString).1 = s ∨
      ∃ t d price, t ≠ "" ∧ d ≠ "" ∧ title = some t ∧ description = some d ∧
        parseInt priceAsString = JSNumber.int price ∧ 1 ≤ price := by
  cases title with
  | none => left; simp [addProduct, falsy]
  | some t =>
    cases description with
    | none =>
      left
      simp only [addProduct, falsy]
      split <;> rfl
    | some d =>
      by_cases ht : t = ""
      · left; simp [addProduct, (falsy_some_iff t).2 ht]
      by_cases hd : d = ""
      · left; simp [addProduct, falsy_some_of_ne ht, (falsy_some_iff d).2 hd]
      cases hv : validateInteger (parseInt priceAsString) 1 with
      | false =>
        left
        rw [addProduct_reject_price host s t d priceAsString ht hd hv]
      | true =>
        right
        obtain ⟨price, hp, h1⟩ := (validateInteger_min_iff _ _).1 hv
        exact ⟨t, d, price, ht, hd, rfl, rfl, hp, h1⟩

theorem addProductToCart_cases (s : State) (idAsString quantityAsString : Option String) :
    (addProductToCart s idAsString quantityAsString).1 = s ∨
      ∃ id quantity product, parseInt idAsString = JSNumber.int id ∧ 1 ≤ id ∧
        s.products.find? (fun p => decide (p.id = id)) = some product ∧
        parseInt quantityAsString = JSNumber.int quantity ∧ 1 ≤ quantity ∧ quantity ≤ 99 := by
  cases hv : validateInteger (parseInt idAsString) 1 with
  | false => left; rw [addProductToCart_invalid_id s _ _ hv]
  | true =>
    obtain ⟨id, hid, h1⟩ := (validateInteger_min_iff _ _).1 hv
    cases hf : s.products.find? (fun p => decide (p.id = id)) with
    | none => left; rw [addProductToCart_not_found s _ _ id hid h1 hf]
    | some product =>
      cases hq : validateInteger (parseInt quantityAsString) 1 (some 99) with
      | false => left; rw [addProductToCart_invalid_quantity s _ _ id product hid h1 hf hq]
      | true =>
        right
        obtain ⟨q, hpq, hq1, hq99⟩ := (validateInteger_range_iff _ _ _).1 hq
        exact ⟨id, q, product, hid, h1, hf, hpq, hq1, hq99⟩

theorem checkout_frame (host : Host) (s : State) (name address : Option String) :
    (checkout host s name address).1.products = s.products ∧
      (checkout host s name address).1.cart.lines = s.cart.lines := by
  unfold checkout
  split
  · exact ⟨rfl, rfl⟩
  · split
    · exact ⟨rfl, rfl⟩
    · split <;> exact ⟨rfl, rfl⟩

theorem mem_addQuantity {id q : Int} {ls : List CartLine} {a : CartLine}
    (h : a ∈ addQuantity id q ls) :
    a ∈ ls ∨ ∃ l ∈ ls, a = { l with quantity := l.quantity + q } := by
  induction ls with
  | nil => simp [addQuantity] at h
  | cons l ls ih =>
    by_cases hl : l.product.id = id
    · simp only [addQuantity, hl, if_true, List.mem_cons] at h
      rcases h with h | h
      · exact Or.inr ⟨l, List.mem_cons_self _ _, h⟩
      · exact Or.inl (List.mem_cons_of_mem _ h)
    · simp only [addQuantity, hl, if_false, List.mem_cons] at h
      rcases h with h | h
      · exact Or.inl (h ▸ List.mem_cons_self _ _)
      · rcases ih h with h' | ⟨b, hb, hab⟩
        · exact Or.inl (List.mem_cons_of_mem _ h')
        · exact Or.inr ⟨b, List.mem_cons_of_mem _ hb, hab⟩

theorem map_id_addQuantity (id q : Int) (ls : List CartLine) :
    (addQuantity id q ls).map (fun l => l.product.id) = ls.map (fun l => l.product.id) := by
  have h := congrArg (List.map (fun p : Product => p.id)) (map_product_addQuantity id q ls)
  simpa [List.map_map] using h

theorem inv_addProduct (host : Host) (s : State)
    (title description priceAsString : Option String) (h : Inv s) :
    Inv (addProduct host s title description priceAsString).1 := by
  rcases addProduct_cases host s title description priceAsString with hs |
    ⟨t, d, price, ht, hd, rfl, rfl, hp, h1⟩
  · rw [hs]; exact h
  · rw [addProduct_accept host s t d priceAsString price ht hd hp h1]
    refine ⟨ids_append h.ids _ rfl, ?_, ?_, ?_, ?_⟩
    · intro p hp
      rcases List.mem_append.1 hp with hp | hp
      · exact h.prices p hp
      · rw [List.mem_singleton.1 hp]; exact h1
    · intro l hl
      rcases List.mem_append.1 hl with hl | hl
      · exact List.mem_append_left _ (h.lineProducts l hl)
      · rw [List.mem_singleton.1 hl]; exact List.mem_append_right _ (List.mem_singleton.2 rfl)
    · show ((s.cart.lines ++ _).map _).Nodup
      rw [List.map_append, List.nodup_append]
      refine ⟨h.lineNodup, by simp, ?_⟩
      intro a ha hb
      obtain ⟨l, hl, rfl⟩ := List.mem_map.1 ha
      have hle := (id_le_length_of_ids h.ids (h.lineProducts l hl)).2
      simp only [List.map_cons, List.map_nil, List.mem_singleton] at hb
      omega
    · intro l hl
      rcases List.mem_append.1 hl with hl | hl
      · exact h.quantities l hl
      · rw [List.mem_singleton.1 hl]

theorem inv_addProductToCart (s : State) (idAsString quantityAsString : Option String)
    (h : Inv s) : Inv (addProductToCart s idAsString quantityAsString).1 := by
  rcases addProductToCart_cases s idAsString quantityAsString with hs |
    ⟨id, q, product, hid, h1, hf, hq, hq1, hq99⟩
  · rw [hs]; exact h
  · rw [addProductToCart_accept s _ _ id q product hid h1 hf hq hq1 hq99]
    have hpid : product.id = id := find?_id_eq hf
    cases hl : findLine id s.cart.lines with
    | some l0 =>
      simp only [Option.isSome_some, if_true]
      refine ⟨h.ids, h.prices, ?_, ?_, ?_⟩
      · intro l hl'
        rcases mem_addQuantity hl' with hm | ⟨b, hb, rfl⟩
        · exact h.lineProducts l hm
        · exact h.lineProducts b hb
      · show ((addQuantity id q s.cart.lines).map _).Nodup
        rw [map_id_addQuantity]; exact h.lineNodup
      · intro l hl'
        rcases mem_addQuantity hl' with hm | ⟨b, hb, rfl⟩
        · exact h.quantities l hm
        · have := h.quantities b hb
          show 1 ≤ b.quantity + q
          omega
    | none =>
      simp only [Option.isSome_none, Bool.false_eq_true, if_false]
      refine ⟨h.ids, h.prices, ?_, ?_, ?_⟩
      · intro l hl'
        rcases List.mem_append.1 hl' with hm | hm
        · exact h.lineProducts l hm
        · rw [List.mem_singleton.1 hm]; exact List.mem_of_find?_eq_some hf
      · show ((s.cart.lines ++ _).map _).Nodup
        rw [List.map_append, List.nodup_append]
        refine ⟨h.lineNodup, by simp, ?_⟩
        intro a ha hb
        obtain ⟨l, hl', rfl⟩ := List.mem_map.1 ha
        simp only [List.map_cons, List.map_nil, List.mem_singleton] at hb
        have hnone := List.find?_eq_none.1 hl l hl'
        simp [hb, hpid] at hnone
      · intro l hl'
        rcases List.mem_append.1 hl' with hm | hm
        · exact h.quantities l hm
        · rw [List.mem_singleton.1 hm]; exact hq1

theorem inv_checkout (host : Host) (s : State) (name address : Option String)
    (h : Inv s) : Inv (checkout host s name address).1 :=
  inv_congr (checkout_frame host s name address).1 (checkout_frame host s name address).2 h

theorem inv_of_reachable {host : Host} {s : State} (h : Reachable host s) : Inv s := by
  induction h with
  | start => exact inv_initial
  | afterAddProduct s t d p _ ih => exact inv_addProduct host s t d p ih
  | afterAddProductToCart s i q _ ih => exact inv_addProductToCart s i q ih
  | afterCheckout s n a _ ih => exact inv_checkout host s n a ih

/-! ## Invariants of the reachable states -/

/-- C8: in every state reachable from the initial state by `addProduct`, `addProductToCart`
and `checkout` calls with arbitrary answers, no two lines of the cart reference products with
the same id. -/
theorem no_duplicate_cart_lines (host : Host) (s : State) (h : Reachable host s) :
    s.cart.lines.Pairwise (fun a b => a.product.id ≠ b.product.id) ∧
      (s.cart.lines.map (fun l => l.product.id)).Nodup := by
  have hn := (inv_of_reachable h).lineNodup
  refine ⟨?_, hn⟩
  have hp : (s.cart.lines.map (fun l => l.product.id)).Pairwise (fun a b => a ≠ b) := hn
  exact List.pairwise_map.1 hp

/-- Witness of C8: a product is added (which puts it in the cart) and then added to the cart
again by its id 4. -/
theorem no_duplicate_cart_lines_witness :
    Reachable plainHost
        (addProductToCart
          (addProduct plainHost initial (some "Bolur") (some "Stuttermabolur") (some "1500")).1
          (some "4") (some "2")).1 ∧
      (addProductToCart
          (addProduct plainHost initial (some "Bolur") (some "Stuttermabolur") (some "1500")).1
          (some "4") (some "2")).1.cart.lines.Pairwise
        (fun a b => a.product.id ≠ b.product.id) :=
  ⟨Reachable.afterAddProductToCart _ _ _ (Reachable.afterAddProduct _ _ _ _ Reachable.start),
   (no_duplicate_cart_lines plainHost _
      (Reachable.afterAddProductToCart _ (some "4") (some "2")
        (Reachable.afterAddProduct initial (some "Bolur") (some "Stuttermabolur") (some "1500")
          Reachable.start))).1⟩

/-- Counterexample to C9 as stated: adding product 1 with quantity 99 twice reaches a state
whose only cart line has quantity 198, outside `[1,99]`. -/
theorem quantity_exceeds_99 :
    Reachable plainHost
        (addProductToCart (addProductToCart initial (some "1") (some "99")).1
          (some "1") (some "99")).1 ∧
      (addProductToCart (addProductToCart initial (some "1") (some "99")).1
          (some "1") (some "99")).1.cart.lines =
        [{ product := { id := 1, title := "HTML húfa",
                        description := "Húfa sem heldur hausnum heitum og hvíslar hugsanlega að þér hvaða element væri best að nota.",
                        price := 5000 },
           quantity := 198 }] ∧
      ¬ ∀ l ∈ (addProductToCart (addProductToCart initial (some "1") (some "99")).1
          (some "1") (some "99")).1.cart.lines, 1 ≤ l.quantity ∧ l.quantity ≤ 99 :=
  ⟨Reachable.afterAddProductToCart _ _ _ (Reachable.afterAddProductToCart _ _ _ Reachable.start),
   by decide, by decide⟩

/-- C9 (amended): in every state reachable from the initial state by `addProduct`,
`addProductToCart` and `checkout` calls with arbitrary answers, every cart line's quantity is
an integer `≥ 1`; no upper bound is kept. -/
theorem cart_quantity_positive (host : Host) (s : State) (h : Reachable host s) :
    ∀ l ∈ s.cart.lines, 1 ≤ l.quantity :=
  (inv_of_reachable h).quantities

/-- Witness of C9 (amended): the state with a line of quantity 198. -/
theorem cart_quantity_positive_witness :
    Reachable plainHost
        (addProductToCart (addProductToCart initial (some "1") (some "99")).1
          (some "1") (some "99")).1 ∧
      ∀ l ∈ (addProductToCart (addProductToCart initial (some "1") (some "99")).1
          (some "1") (some "99")).1.cart.lines, 1 ≤ l.quantity :=
  ⟨Reachable.afterAddProductToCart _ _ _ (Reachable.afterAddProductToCart _ _ _ Reachable.start),
   cart_quantity_positive plainHost _
     (Reachable.afterAddProductToCart _ (some "1") (some "99")
       (Reachable.afterAddProductToCart initial (some "1") (some "99") Reachable.start))⟩

/-- C10: in every state reachable from the initial state by `addProduct`, `addProductToCart`
and `checkout` calls, the product at 0-based position `i` of the catalog has id `i + 1` and a
price `≥ 1`; hence the catalog ids are positive, strictly increasing in insertion order and
pairwise distinct. -/
theorem catalog_ids (host : Host) (s : State) (h : Reachable host s) :
    (∀ (i : Nat) (p : Product), s.products[i]? = some p → p.id = (i : Int) + 1 ∧ 1 ≤ p.price) ∧
      (∀ p ∈ s.products, 1 ≤ p.id ∧ 1 ≤ p.price) ∧
      (s.products.map (fun p => p.id)).Pairwise (fun a b => a < b) ∧
      (s.products.map (fun p => p.id)).Nodup := by
  have hinv := inv_of_reachable h
  have hids := hinv.ids
  have hpw : (s.products.map (fun p => p.id)).Pairwise (fun a b => a < b) := by
    rw [hids, List.pairwise_map]
    exact (List.pairwise_lt_range s.products.length).imp (fun hab => by omega)
  refine ⟨?_, ?_, hpw, hpw.imp (fun hab => ne_of_lt hab)⟩
  · intro i p hp
    have hmem : p ∈ s.products := List.getElem?_mem hp
    refine ⟨?_, hinv.prices p hmem⟩
    have h1 : (s.products.map (fun p => p.id))[i]? = some p.id := by
      rw [List.getElem?_map, hp]; rfl
    rw [hids, List.getElem?_map] at h1
    have hlt : i < s.products.length := (List.getElem?_eq_some.1 hp).1
    rw [List.getElem?_range hlt] at h1
    simpa using h1.symm
  · intro p hp
    exact ⟨(id_le_length_of_ids hids hp).1, hinv.prices p hp⟩

/-- Witness of C10: the catalog after one product is added has ids 1, 2, 3, 4. -/
theorem catalog_ids_witness :
    Reachable plainHost
        (addProduct plainHost initial (some "Bolur") (some "Stuttermabolur") (some "1500")).1 ∧
      ((addProduct plainHost initial (some "Bolur") (some "Stuttermabolur")
          (some "1500")).1.products.map (fun p => p.id)).Pairwise (fun a b => a < b) :=
  ⟨Reachable.afterAddProduct _ _ _ _ Reachable.start,
   (catalog_ids plainHost _
      (Reachable.afterAddProduct initial (some "Bolur") (some "Stuttermabolur") (some "1500")
        Reachable.start)).2.2.1⟩

/-! ## Cart lines and the catalog -/

theorem find?_eq_of_nodup_ids {ps : List Product} (hn : (ps.map (fun p => p.id)).Nodup)
    {p : Product} (hp : p ∈ ps) : ps.find? (fun x => decide (x.id = p.id)) = some p := by
  obtain ⟨p', hf⟩ := find?_id_of_mem ⟨p, hp, rfl⟩
  have hmem : p' ∈ ps := List.mem_of_find?_eq_some hf
  have hid : p'.id = p.id := find?_id_eq hf
  have heq : p' = p := List.inj_on_of_nodup_map hn hmem hp hid
  rw [hf, heq]

theorem nodup_ids_of_inv {s : State} (h : Inv s) : (s.products.map (fun p => p.id)).Nodup := by
  rw [h.ids]
  have hpw : ((List.range s.products.length).map (fun i : Nat => (i : Int) + 1)).Pairwise
      (fun a b => a < b) := by
    rw [List.pairwise_map]
    exact (List.pairwise_lt_range s.products.length).imp (fun hab => by omega)
  exact hpw.imp (fun hab => ne_of_lt hab)

/-- C11: in every state reachable from the initial state by `addProduct`, `addProductToCart`
and `checkout` calls, the product of every cart line is an element of the catalog, and it is
the entry the catalog holds for its id: looking its id up in the catalog returns a product
with the same id, title, description and price. -/
theorem cart_lines_reference_catalog (host : Host) (s : State) (h : Reachable host s) :
    ∀ l ∈ s.cart.lines,
      l.product ∈ s.products ∧
        s.products.find? (fun p => decide (p.id = l.product.id)) = some l.product := by
  intro l hl
  have hinv := inv_of_reachable h
  have hmem := hinv.lineProducts l hl
  exact ⟨hmem, find?_eq_of_nodup_ids (nodup_ids_of_inv hinv) hmem⟩

/-- Witness of C11: a product is added (which puts it in the cart) and product 2 is added to
the cart. -/
theorem cart_lines_reference_catalog_witness :
    Reachable plainHost
        (addProductToCart
          (addProduct plainHost initial (some "Bolur") (some "Stuttermabolur") (some "1500")).1
          (some "2") (some "5")).1 ∧
      ∀ l ∈ (addProductToCart
          (addProduct plainHost initial (some "Bolur") (some "Stuttermabolur") (some "1500")).1
          (some "2") (some "5")).1.cart.lines,
        l.product ∈ (addProductToCart
          (addProduct plainHost initial (some "Bolur") (some "Stuttermabolur") (some "1500")).1
          (some "2") (some "5")).1.products :=
  ⟨Reachable.afterAddProductToCart _ _ _ (Reachable.afterAddProduct _ _ _ _ Reachable.start),
   fun l hl =>
    (cart_lines_reference_catalog plainHost _
      (Reachable.afterAddProductToCart _ (some "2") (some "5")
        (Reachable.afterAddProduct initial (some "Bolur") (some "Stuttermabolur") (some "1500")
          Reachable.start)) l hl).1⟩

/-! ## Failure paths -/

theorem addProduct_reject (host : Host) (s : State)
    (title description priceAsString : Option String)
    (h : falsy title = true ∨ falsy description = true ∨ falsy priceAsString = true ∨
      validateInteger (parseInt priceAsString) 1 = false) :
    addProduct host s title description priceAsString =
      (s, [Console.error
        (if falsy title then "Titill má ekki vera tómur."
         else if falsy description then "Lýsing má ekki vera tóm."
         else if falsy priceAsString then "Verð má ekki vera tómt."
         else "Verð verður að vera jákvæð heiltala.")]) := by
  cases ht : falsy title with
  | true => simp [addProduct, ht]
  | false =>
    cases hd : falsy description with
    | true => simp [addProduct, ht, hd]
    | false =>
      cases hp : falsy priceAsString with
      | true => simp [addProduct, ht, hd, hp]
      | false =>
        have hv : validateInteger (parseInt priceAsString) 1 = false := by
          rcases h with h | h | h | h
          · rw [ht] at h; cases h
          · rw [hd] at h; cases h
          · rw [hp] at h; cases h
          · exact h
        simp only [addProduct, ht, hd, hp, hv]
        cases parseInt priceAsString <;> simp

/-- C12: when `addProduct` fails it cites the first bad field and changes nothing.  For every
state and all answers: an empty title gives the title error; otherwise an empty description
gives the description error; otherwise an empty price answer gives the empty-price error;
otherwise a price that does not parse to an integer `≥ 1` gives the positive-integer error.
In each case one error is reported and the catalog and the cart (lines, name, address) are
as before. -/
theorem addProduct_failure_atomic (host : Host) (s : State)
    (title description priceAsString : Option String)
    (h : falsy title = true ∨ falsy description = true ∨ falsy priceAsString = true ∨
      validateInteger (parseInt priceAsString) 1 = false) :
    (addProduct host s title description priceAsString).1 = s ∧
      (addProduct host s title description priceAsString).2 =
        [Console.error
          (if falsy title then "Titill má ekki vera tómur."
           else if falsy description then "Lýsing má ekki vera tóm."
           else if falsy priceAsString then "Verð má ekki vera tómt."
           else "Verð verður að vera jákvæð heiltala.")] := by
  rw [addProduct_reject host s title description priceAsString h]
  exact ⟨rfl, rfl⟩

/-- Witness of C12: an empty title together with an empty description and a bad price cites
the title; a price of 401 digits, which parses to `Infinity`, gets the positive-integer
error. -/
theorem addProduct_failure_atomic_witness :
    ((falsy (some "") = true ∨ falsy none = true ∨ falsy (some "abc") = true ∨
        validateInteger (parseInt (some "abc")) 1 = false) ∧
      addProduct plainHost initial (some "") none (some "abc") =
        (initial, [Console.error "Titill má ekki vera tómur."])) ∧
    ((falsy (some "Bolur") = true ∨ falsy (some "Stuttermabolur") = true ∨
        falsy (some hugeDigits) = true ∨
        validateInteger (parseInt (some hugeDigits)) 1 = false) ∧
      addProduct plainHost initial (some "Bolur") (some "Stuttermabolur") (some hugeDigits) =
        (initial, [Console.error "Verð verður að vera jákvæð heiltala."])) :=
  ⟨⟨Or.inl (by decide),
    Prod.ext
      (addProduct_failure_atomic plainHost initial (some "") none (some "abc")
        (Or.inl (by decide))).1
      (addProduct_failure_atomic plainHost initial (some "") none (some "abc")
        (Or.inl (by decide))).2⟩,
   ⟨Or.inr (Or.inr (Or.inr (by decide))),
    Prod.ext
      (addProduct_failure_atomic plainHost initial (some "Bolur") (some "Stuttermabolur")
        (some hugeDigits) (Or.inr (Or.inr (Or.inr (by decide))))).1
      (addProduct_failure_atomic plainHost initial (some "Bolur") (some "Stuttermabolur")
        (some hugeDigits) (Or.inr (Or.inr (Or.inr (by decide))))).2⟩⟩

theorem addQuantity_ne_self (id q : Int) (ls : List CartLine) (l : CartLine)
    (h : findLine id ls = some l) (hq : q ≠ 0) : addQuantity id q ls ≠ ls := by
  intro heq
  have h2 := findLine_addQuantity id q ls l h
  rw [heq, h] at h2
  have h3 : l.quantity = l.quantity + q := congrArg CartLine.quantity (Option.some.inj h2)
  omega

theorem addProductToCart_accept_changes (s : State) (idAsString quantityAsString : Option String)
    (id quantity : Int) (product : Product)
    (hid : parseInt idAsString = JSNumber.int id) (h1 : 1 ≤ id)
    (hfind : s.products.find? (fun p => decide (p.id = id)) = some product)
    (hq : parseInt quantityAsString = JSNumber.int quantity)
    (hq1 : 1 ≤ quantity) (hq99 : quantity ≤ 99) :
    (addProductToCart s idAsString quantityAsString).1.cart.lines ≠ s.cart.lines := by
  rw [addProductToCart_accept s _ _ id quantity product hid h1 hfind hq hq1 hq99]
  cases hl : findLine id s.cart.lines with
  | some l =>
    simp only [Option.isSome_some, if_true]
    exact addQuantity_ne_self id quantity _ l hl (by omega)
  | none =>
    simp only [Option.isSome_none, Bool.false_eq_true, if_false]
    intro heq
    have := congrArg List.length heq
    simp at this

/-- Counterexample to C13 as stated: the non-integer quantity text "2.5" is not rejected;
product 1 is put in the cart with quantity 2 and no error is reported. -/
theorem addToCart_accepts_fractional_quantity :
    (addProductToCart initial (some "1") (some "2.5")).1.cart.lines.map
        (fun l => (l.product.id, l.quantity)) = [(1, 2)] ∧
      (addProductToCart initial (some "1") (some "2.5")).2 = [] ∧
      (addProductToCart initial (some "1") (some "2.5")).1.cart ≠ initial.cart := by
  decide

/-- C13 (amended): for every state and every id answer that parses to the id (`≥ 1`) of a
catalog product, `addProductToCart` succeeds, which changes the cart lines and reports
nothing, if and only if the quantity answer parses to an integer in `[1,99]`; for every other
quantity answer (parsing to 0, to 100 or more, to a negative number, or to `NaN` as
non-numeric and cancelled answers do) it reports the quantity validation error and leaves the
whole state unchanged. -/
theorem addToCart_quantity_validation (s : State) (idText qText : Option String) (id : Int)
    (hid : parseInt idText = JSNumber.int id) (hpos : 1 ≤ id)
    (hmem : ∃ p ∈ s.products, p.id = id) :
    ((addProductToCart s idText qText).1.cart ≠ s.cart ↔
        validateInteger (parseInt qText) 1 (some 99) = true) ∧
      (validateInteger (parseInt qText) 1 (some 99) = true →
        (addProductToCart s idText qText).1.cart.lines ≠ s.cart.lines ∧
          (addProductToCart s idText qText).1.products = s.products ∧
          (addProductToCart s idText qText).2 = []) ∧
      (validateInteger (parseInt qText) 1 (some 99) = false →
        addProductToCart s idText qText =
          (s, [Console.error "Fjöldi er ekki löglegur, lágmark 1 og hámark 99."])) := by
  obtain ⟨product, hfind⟩ := find?_id_of_mem hmem
  have hgood : validateInteger (parseInt qText) 1 (some 99) = true →
      (addProductToCart s idText qText).1.cart.lines ≠ s.cart.lines ∧
        (addProductToCart s idText qText).1.products = s.products ∧
        (addProductToCart s idText qText).2 = [] := by
    intro hv
    obtain ⟨q, hq, hq1, hq99⟩ := (validateInteger_range_iff _ _ _).1 hv
    refine ⟨addProductToCart_accept_changes s _ _ id q product hid hpos hfind hq hq1 hq99, ?_, ?_⟩
    · rw [addProductToCart_accept s _ _ id q product hid hpos hfind hq hq1 hq99]
    · rw [addProductToCart_accept s _ _ id q product hid hpos hfind hq hq1 hq99]
  have hbad : validateInteger (parseInt qText) 1 (some 99) = false →
      addProductToCart s idText qText =
        (s, [Console.error "Fjöldi er ekki löglegur, lágmark 1 og hámark 99."]) :=
    fun hv => addProductToCart_invalid_quantity s _ _ id product hid hpos hfind hv
  refine ⟨⟨fun hne => ?_, fun hv hc => (hgood hv).1 (by rw [hc])⟩, hgood, hbad⟩
  cases hv : validateInteger (parseInt qText) 1 (some 99) with
  | true => rfl
  | false => rw [hbad hv] at hne; exact absurd rfl hne

/-- Witness of C13 (amended): for product 1 of the initial state the quantity answers "0",
"100", "-3", "abc" and a cancelled prompt are rejected. -/
theorem addToCart_quantity_validation_witness :
    (parseInt (some "1") = JSNumber.int 1 ∧ (1 : Int) ≤ 1 ∧
      ∃ p ∈ initial.products, p.id = 1) ∧
    (addProductToCart initial (some "1") (some "0")).1 = initial ∧
    (addProductToCart initial (some "1") (some "100")).1 = initial ∧
    (addProductToCart initial (some "1") (some "-3")).1 = initial ∧
    (addProductToCart initial (some "1") (some "abc")).1 = initial ∧
    (addProductToCart initial (some "1") none).1 = initial :=
  ⟨⟨by decide, by decide, by decide⟩,
   congrArg Prod.fst ((addToCart_quantity_validation initial (some "1") (some "0") 1
      (by decide) (by decide) (by decide)).2.2 (by decide)),
   congrArg Prod.fst ((addToCart_quantity_validation initial (some "1") (some "100") 1
      (by decide) (by decide) (by decide)).2.2 (by decide)),
   congrArg Prod.fst ((addToCart_quantity_validation initial (some "1") (some "-3") 1
      (by decide) (by decide) (by decide)).2.2 (by decide)),
   congrArg Prod.fst ((addToCart_quantity_validation initial (some "1") (some "abc") 1
      (by decide) (by decide) (by decide)).2.2 (by decide)),
   congrArg Prod.fst ((addToCart_quantity_validation initial (some "1") none 1
      (by decide) (by decide) (by decide)).2.2 (by decide))⟩

theorem checkout_twice (host : Host) (s : State) (name address : Option String) :
    checkout host (checkout host s name address).1 name address = checkout host s name address := by
  by_cases hbad : s.cart.lines = [] ∨ falsy name = true ∨ falsy address = true
  · rw [(checkout_reject host s name address hbad).1]
  · simp only [not_or, Bool.not_eq_true] at hbad
    obtain ⟨hl, hn, ha⟩ := hbad
    cases name with
    | none => simp [falsy] at hn
    | some n =>
      cases address with
      | none => simp [falsy] at ha
      | some a =>
        have hn' : n ≠ "" := fun hc => by rw [(falsy_some_iff n).2 hc] at hn; cases hn
        have ha' : a ≠ "" := fun hc => by rw [(falsy_some_iff a).2 hc] at ha; cases ha
        rw [checkout_accept host s n a hl hn' ha']
        have e2 := checkout_accept host
          { products := s.products,
            cart := { lines := s.cart.lines, name := some n, address := some a } }
          n a hl hn' ha'
        rw [e2]
        simp [cartInfo, cartTotal]

theorem checkout_out_of_good (host : Host) (s : State) (name address : Option String)
    (hl : s.cart.lines ≠ []) (hn : falsy name = false) (ha : falsy address = false) :
    (checkout host s name address).2 =
      [Console.info ("Pöntun móttekin " ++ toStringArg name ++ ".\nVörur verða sendar á " ++
        toStringArg address ++ ".\n\n" ++ cartInfo host s.cart)] := by
  have hlen : s.cart.lines.length ≠ 0 := by simpa using hl
  simp [checkout, hlen, hn, ha, cartInfo, cartTotal]

/-- C14: `checkout` does not clear the cart.  For every state and all answers, whether it
succeeds or fails, the cart lines and the catalog are exactly as before, and a second call
with the same answers returns the same state and the same output as the first.  Hence on a
cart with lines and a non-empty name and address, calling it twice writes the confirmation
twice, with the same summary, and ends in the same state as one call. -/
theorem checkout_keeps_cart (host : Host) (s : State) (name address : Option String) :
    ((checkout host s name address).1.cart.lines = s.cart.lines ∧
        (checkout host s name address).1.products = s.products) ∧
      checkout host (checkout host s name address).1 name address = checkout host s name address ∧
      (s.cart.lines ≠ [] → falsy name = false → falsy address = false →
        (checkout host s name address).2 =
            [Console.info ("Pöntun móttekin " ++ toStringArg name ++
              ".\nVörur verða sendar á " ++ toStringArg address ++ ".\n\n" ++
              cartInfo host s.cart)] ∧
          (checkout host (checkout host s name address).1 name address).2 =
            [Console.info ("Pöntun móttekin " ++ toStringArg name ++
              ".\nVörur verða sendar á " ++ toStringArg address ++ ".\n\n" ++
              cartInfo host s.cart)] ∧
          (checkout host (checkout host s name address).1 name address).1 =
            (checkout host s name address).1) := by
  refine ⟨⟨(checkout_frame host s name address).2, (checkout_frame host s name address).1⟩,
    checkout_twice host s name address, ?_⟩
  intro hl hn ha
  have hout := checkout_out_of_good host s name address hl hn ha
  refine ⟨hout, ?_, ?_⟩
  · rw [checkout_twice]; exact hout
  · rw [checkout_twice]

/-- Witness of C14: a failing checkout of the initial state, whose cart is empty, leaves the
catalog and the cart lines alone, and two checkouts of the cart that holds two of product 1
write the same confirmation. -/
theorem checkout_keeps_cart_witness :
    ((checkout plainHost initial (some "Jón") (some "Einhver gata 1")).1.cart.lines =
        initial.cart.lines ∧
      (checkout plainHost initial (some "Jón") (some "Einhver gata 1")).1.products =
        initial.products) ∧
    ((addProductToCart initial (some "1") (some "2")).1.cart.lines ≠ [] ∧
      falsy (some "Jón") = false ∧ falsy (some "Einhver gata 1") = false) ∧
    (checkout plainHost
        (checkout plainHost (addProductToCart initial (some "1") (some "2")).1
          (some "Jón") (some "Einhver gata 1")).1 (some "Jón") (some "Einhver gata 1")).2 =
      [Console.info ("Pöntun móttekin " ++ toStringArg (some "Jón") ++
        ".\nVörur verða sendar á " ++ toStringArg (some "Einhver gata 1") ++ ".\n\n" ++
        cartInfo plainHost (addProductToCart initial (some "1") (some "2")).1.cart)] :=
  ⟨(checkout_keeps_cart plainHost initial (some "Jón") (some "Einhver gata 1")).1,
   ⟨by decide, by decide, by decide⟩,
   ((checkout_keeps_cart plainHost (addProductToCart initial (some "1") (some "2")).1
      (some "Jón") (some "Einhver gata 1")).2.2 (by decide) (by decide) (by decide)).2.1⟩

/-! ## Cancelled prompts -/

theorem falsy_empty : falsy (some "") = true := by decide

theorem parseInt_empty : parseInt (some "") = JSNumber.nan := by decide

theorem parseInt_null : parseInt none = JSNumber.nan := by decide

theorem addProductToCart_congr_quantity (s : State) (idAsString q q' : Option String)
    (h : parseInt q = parseInt q') :
    addProductToCart s idAsString q = addProductToCart s idAsString q' := by
  simp only [addProductToCart, h]

theorem addProductToCart_abort_of_nan (s : State) (idAsString q : Option String)
    (h : parseInt q = JSNumber.nan) :
    (addProductToCart s idAsString q).1 = s ∧
      ∃ msg, (addProductToCart s idAsString q).2 = [Console.error msg] := by
  cases hv : validateInteger (parseInt idAsString) 1 with
  | false =>
    rw [addProductToCart_invalid_id s _ _ hv]
    exact ⟨rfl, _, rfl⟩
  | true =>
    obtain ⟨id, hid, h1⟩ := (validateInteger_min_iff _ _).1 hv
    cases hf : s.products.find? (fun p => decide (p.id = id)) with
    | none =>
      rw [addProductToCart_not_found s _ _ id hid h1 hf]
      exact ⟨rfl, _, rfl⟩
    | some product =>
      have hq : validateInteger (parseInt q) 1 (some 99) = false := by rw [h]; rfl
      rw [addProductToCart_invalid_quantity s _ _ id product hid h1 hf hq]
      exact ⟨rfl, _, rfl⟩

theorem addProduct_abort (host : Host) (s : State)
    (title description priceAsString : Option String)
    (h : falsy title = true ∨ falsy description = true ∨ falsy priceAsString = true ∨
      validateInteger (parseInt priceAsString) 1 = false) :
    (addProduct host s title description priceAsString).1 = s ∧
      ∃ msg, (addProduct host s title description priceAsString).2 = [Console.error msg] := by
  rw [addProduct_reject host s title description priceAsString h]
  exact ⟨rfl, _, rfl⟩

/-- C15: a cancelled prompt (`null`) is treated as an empty answer.  For each of
`addProduct`, `addProductToCart` and `checkout` and each of its prompts, with all other
answers equal, the answer `null` gives the same resulting state and the same reported
messages as the answer `""`, and the operation aborts: the catalog and the cart are unchanged
and one error is reported. -/
theorem cancel_equals_empty (host : Host) (s : State) (x y z : Option String) :
    (addProduct host s none y z = addProduct host s (some "") y z ∧
        (addProduct host s none y z).1 = s ∧
        ∃ msg, (addProduct host s none y z).2 = [Console.error msg]) ∧
      (addProduct host s x none z = addProduct host s x (some "") z ∧
        (addProduct host s x none z).1 = s ∧
        ∃ msg, (addProduct host s x none z).2 = [Console.error msg]) ∧
      (addProduct host s x y none = addProduct host s x y (some "") ∧
        (addProduct host s x y none).1 = s ∧
        ∃ msg, (addProduct host s x y none).2 = [Console.error msg]) ∧
      (addProductToCart s none y = addProductToCart s (some "") y ∧
        (addProductToCart s none y).1 = s ∧
        ∃ msg, (addProductToCart s none y).2 = [Console.error msg]) ∧
      (addProductToCart s x none = addProductToCart s x (some "") ∧
        (addProductToCart s x none).1 = s ∧
        ∃ msg, (addProductToCart s x none).2 = [Console.error msg]) ∧
      (checkout host s none y = checkout host s (some "") y ∧
        (checkout host s none y).1 = s ∧
        ∃ msg, (checkout host s none y).2 = [Console.error msg]) ∧
      (checkout host s x none = checkout host s x (some "") ∧
        (checkout host s x none).1 = s ∧
        ∃ msg, (checkout host s x none).2 = [Console.error msg]) := by
  have hN : falsy none = true := rfl
  have hE := falsy_empty
  refine ⟨⟨?_, ?_⟩, ⟨?_, ?_⟩, ⟨?_, ?_⟩, ⟨?_, ?_⟩, ⟨?_, ?_⟩, ⟨?_, ?_⟩, ⟨?_, ?_⟩⟩
  · rw [addProduct_reject host s none y z (Or.inl hN),
      addProduct_reject host s (some "") y z (Or.inl hE)]
    simp [hN, hE]
  · exact addProduct_abort host s none y z (Or.inl hN)
  · rw [addProduct_reject host s x none z (Or.inr (Or.inl hN)),
      addProduct_reject host s x (some "") z (Or.inr (Or.inl hE))]
    simp [hN, hE]
  · exact addProduct_abort host s x none z (Or.inr (Or.inl hN))
  · rw [addProduct_reject host s x y none (Or.inr (Or.inr (Or.inl hN))),
      addProduct_reject host s x y (some "") (Or.inr (Or.inr (Or.inl hE)))]
    simp [hN, hE]
  · exact addProduct_abort host s x y none (Or.inr (Or.inr (Or.inl hN)))
  · rw [addProductToCart_invalid_id s none y (by rw [parseInt_null]; rfl),
      addProductToCart_invalid_id s (some "") y (by rw [parseInt_empty]; rfl)]
  · rw [addProductToCart_invalid_id s none y (by rw [parseInt_null]; rfl)]
    exact ⟨rfl, _, rfl⟩
  · exact addProductToCart_congr_quantity s x none (some "")
      (by rw [parseInt_null, parseInt_empty])
  · exact addProductToCart_abort_of_nan s x none parseInt_null
  · simp [checkout, hN, hE]
  · exact checkout_reject host s none y (Or.inr (Or.inl hN))
  · simp [checkout, hN, hE]
  · exact checkout_reject host s x none (Or.inr (Or.inr hN))

/-! ## `formatProduct` -/

/-- C16: with `formatPrice` a given function of the host, `formatProduct` without a quantity
returns `title ++ " — " ++ formatPrice(price)`, and with a quantity `q` it returns
`title ++ " — " ++ q ++ "x" ++ formatPrice(price) ++ " samtals " ++ formatPrice(price * q)`.
Here `q` is the text a template literal gives for the number, its decimal digits when
`|q| < 2^53`, and `price * q` is the JavaScript product, which is the integer product when
that is below `2^53` in magnitude.  The result is a function of the product and the quantity
alone, so no state is read or changed. -/
theorem formatProduct_text (host : Host) (product : Product) (q : Int) :
    formatProduct host product =
        product.title ++ " — " ++ host.formatPrice (JSNumber.int product.price) ∧
      formatProduct host product none =
        product.title ++ " — " ++ host.formatPrice (JSNumber.int product.price) ∧
      formatProduct host product (some q) =
        product.title ++ " — " ++ numberToString host q ++ "x" ++
          host.formatPrice (JSNumber.int product.price) ++ " samtals " ++
          host.formatPrice (JSNumber.mul (JSNumber.int product.price) (JSNumber.int q)) ∧
      (q.natAbs < 2 ^ 53 → numberToString host q = toString q) ∧
      ((product.price * q).natAbs < 2 ^ 53 →
        JSNumber.mul (JSNumber.int product.price) (JSNumber.int q) =
          JSNumber.int (product.price * q)) ∧
      formatProduct plainHost
          { id := 2, title := "CSS sokkar", description := "Sokkar", price := 3000 } (some 2) =
        "CSS sokkar — 2x3000 kr. samtals 6000 kr." ∧
      formatProduct plainHost
          { id := 4, title := "Bolur", description := "Stuttermabolur",
            price := 9007199254740991 } (some 3) =
        "Bolur — 3x9007199254740991 kr. samtals 27021597764222972 kr." := by
  refine ⟨rfl, rfl, rfl, ?_, ?_, by decide, by decide⟩
  · intro h
    unfold numberToString
    rw [if_pos h]
  · intro h
    exact ofInt_of_natAbs_lt h

/-! ## The total after `addProductToCart` -/

theorem sum_addQuantity (id q : Int) (ls : List CartLine) (l : CartLine)
    (h : findLine id ls = some l) :
    ((addQuantity id q ls).map fun l => l.product.price * l.quantity).sum =
      (ls.map fun l => l.product.price * l.quantity).sum + l.product.price * q := by
  induction ls with
  | nil => simp [findLine] at h
  | cons a ls ih =>
    unfold findLine at h ih
    by_cases ha : a.product.id = id
    · simp [List.find?_cons, ha] at h
      subst h
      simp [addQuantity, ha]
      ring
    · simp [List.find?_cons, ha] at h
      simp [addQuantity, ha, ih h]
      ring

theorem getElem?_addQuantity (id q : Int) (ls : List CartLine) (i : Nat) (l : CartLine)
    (h : ls[i]? = some l) :
    ∃ l', (addQuantity id q ls)[i]? = some l' ∧ l'.product = l.product ∧
      (l.product.id ≠ id → l' = l) := by
  induction ls generalizing i with
  | nil => simp at h
  | cons a ls ih =>
    by_cases ha : a.product.id = id
    · cases i with
      | zero =>
        simp at h
        subst h
        exact ⟨{ a with quantity := a.quantity + q }, by simp [addQuantity, ha], rfl,
          fun hne => absurd ha hne⟩
      | succ j =>
        simp at h
        exact ⟨l, by simp [addQuantity, ha, h], rfl, fun _ => rfl⟩
    · cases i with
      | zero =>
        simp at h
        subst h
        exact ⟨a, by simp [addQuantity, ha], rfl, fun _ => rfl⟩
      | succ j =>
        simp at h
        obtain ⟨l', h1, h2, h3⟩ := ih j h
        exact ⟨l', by simp [addQuantity, ha, h1], h2, h3⟩

theorem nonneg_addQuantity (id q : Int) (ls : List CartLine) (hq : 0 ≤ q)
    (hnn : ∀ l ∈ ls, 0 ≤ l.product.price ∧ 0 ≤ l.quantity) :
    ∀ l ∈ addQuantity id q ls, 0 ≤ l.product.price ∧ 0 ≤ l.quantity := by
  intro l hl
  rcases mem_addQuantity hl with hm | ⟨b, hb, rfl⟩
  · exact hnn l hm
  · have := hnn b hb
    exact ⟨this.1, by show 0 ≤ b.quantity + q; omega⟩

/-- Counterexample to C17 as stated: in the reachable state whose cart holds one of product
4, priced 9007199254740991, and one of product 5, priced 1, the total is 9007199254740992.
After `addProductToCart("4", "2")` it is 27021597764222972.  The total before plus
`p * q = 18014398509481982` is 27021597764222974, and 27021597764222976 when that sum is
itself computed in double arithmetic. -/
theorem total_growth_rounds :
    Reachable plainHost bigPriceTwoLines ∧
      (∀ l ∈ bigPriceTwoLines.cart.lines, l.product ∈ bigPriceTwoLines.products) ∧
      (bigPriceTwoLines.products.map (fun x => x.id)).Nodup ∧
      (∃ x ∈ bigPriceTwoLines.products, x.id = 4 ∧ x.price = 9007199254740991) ∧
      parseInt (some "4") = JSNumber.int 4 ∧ parseInt (some "2") = JSNumber.int 2 ∧
      cartTotal bigPriceTwoLines.cart = JSNumber.int 9007199254740992 ∧
      cartTotal (addProductToCart bigPriceTwoLines (some "4") (some "2")).1.cart =
        JSNumber.int 27021597764222972 ∧
      (9007199254740992 : Int) + 9007199254740991 * 2 = 27021597764222974 ∧
      JSNumber.add (cartTotal bigPriceTwoLines.cart)
          (JSNumber.mul (JSNumber.int 9007199254740991) (JSNumber.int 2)) =
        JSNumber.int 27021597764222976 :=
  ⟨Reachable.afterAddProduct _ _ _ _ (Reachable.afterAddProduct _ _ _ _ Reachable.start),
   by decide, by decide, by decide, by decide, by decide, by decide, by decide, by decide,
   by decide⟩

/-- C17 (amended): in a state where every cart line's product is a catalog product and the
catalog ids are distinct, for an id (`≥ 1`) of a catalog product with price `p` and a
quantity `q` in `[1,99]`, after `addProductToCart` the sum of `price * quantity` over the
lines is the sum before plus `p * q`; the number of lines grows by at most 1; every earlier
line keeps its position and its product, and a line for a different product is unchanged; the
catalog, `cart.name` and `cart.address` are unchanged.  The total the script computes, in
double arithmetic, is the total before plus `p * q` when no price or quantity is negative and
the new sum is below `2^53`. -/
theorem addToCart_total_grows (s : State) (idText qText : Option String) (id q p : Int)
    (hlines : ∀ l ∈ s.cart.lines, l.product ∈ s.products)
    (hnodup : (s.products.map (fun x => x.id)).Nodup)
    (hid : parseInt idText = JSNumber.int id) (hpos : 1 ≤ id)
    (hprod : ∃ x ∈ s.products, x.id = id ∧ x.price = p)
    (hq : parseInt qText = JSNumber.int q) (hq1 : 1 ≤ q) (hq99 : q ≤ 99) :
    exactTotal (addProductToCart s idText qText).1.cart = exactTotal s.cart + p * q ∧
      ((∀ l ∈ s.cart.lines, 0 ≤ l.product.price ∧ 0 ≤ l.quantity) → 0 ≤ p →
        exactTotal s.cart + p * q < 2 ^ 53 →
        cartTotal s.cart = JSNumber.int (exactTotal s.cart) ∧
          cartTotal (addProductToCart s idText qText).1.cart =
            JSNumber.int (exactTotal s.cart + p * q)) ∧
      s.cart.lines.length ≤ (addProductToCart s idText qText).1.cart.lines.length ∧
      (addProductToCart s idText qText).1.cart.lines.length ≤ s.cart.lines.length + 1 ∧
      (∀ (i : Nat) (l : CartLine), s.cart.lines[i]? = some l →
        ∃ l', (addProductToCart s idText qText).1.cart.lines[i]? = some l' ∧
          l'.product = l.product ∧ (l.product.id ≠ id → l' = l)) ∧
      (addProductToCart s idText qText).1.products = s.products ∧
      (addProductToCart s idText qText).1.cart.name = s.cart.name ∧
      (addProductToCart s idText qText).1.cart.address = s.cart.address := by
  obtain ⟨x, hx, hxid, hxp⟩ := hprod
  have hfind : s.products.find? (fun y => decide (y.id = id)) = some x := by
    have := find?_eq_of_nodup_ids hnodup hx
    rwa [hxid] at this
  have hjs : ∀ c : Cart, exactTotal c = exactTotal s.cart + p * q →
      (∀ l ∈ s.cart.lines, 0 ≤ l.product.price ∧ 0 ≤ l.quantity) → 0 ≤ p →
      (∀ l ∈ c.lines, 0 ≤ l.product.price ∧ 0 ≤ l.quantity) →
      exactTotal s.cart + p * q < 2 ^ 53 →
      cartTotal s.cart = JSNumber.int (exactTotal s.cart) ∧
        cartTotal c = JSNumber.int (exactTotal s.cart + p * q) := by
    intro c hc hnn hp0 hnn' hb
    have hpq : 0 ≤ p * q := mul_nonneg hp0 (by omega)
    refine ⟨cartTotal_exact s.cart hnn (by omega), ?_⟩
    rw [← hc]
    exact cartTotal_exact c hnn' (by rw [hc]; exact hb)
  rw [addProductToCart_accept s _ _ id q x hid hpos hfind hq hq1 hq99]
  cases hl : findLine id s.cart.lines with
  | some l =>
    simp only [Option.isSome_some, if_true]
    have hlmem : l ∈ s.cart.lines := List.mem_of_find?_eq_some hl
    have hlid : l.product.id = id := by simpa using List.find?_some hl
    have hlx : l.product = x :=
      List.inj_on_of_nodup_map hnodup (hlines l hlmem) hx (by rw [hlid, hxid])
    have hex : exactTotal
        { lines := addQuantity id q s.cart.lines, name := s.cart.name,
          address := s.cart.address } = exactTotal s.cart + p * q := by
      show ((addQuantity id q s.cart.lines).map _).sum = _
      rw [sum_addQuantity id q _ l hl, hlx, hxp]
      rfl
    refine ⟨hex, ?_, ?_, ?_, ?_, by trivial, by trivial, by trivial⟩
    · intro hnn hp0 hb
      exact hjs _ hex hnn hp0 (nonneg_addQuantity id q _ (by omega) hnn) hb
    · show s.cart.lines.length ≤ (addQuantity id q s.cart.lines).length
      rw [length_addQuantity]
    · show (addQuantity id q s.cart.lines).length ≤ _
      rw [length_addQuantity]; omega
    · intro i l0 hi
      exact getElem?_addQuantity id q _ i l0 hi
  | none =>
    simp only [Option.isSome_none, Bool.false_eq_true, if_false]
    have hex : exactTotal
        { lines := s.cart.lines ++ [{ product := x, quantity := q }], name := s.cart.name,
          address := s.cart.address } = exactTotal s.cart + p * q := by
      simp [exactTotal, hxp]
    refine ⟨hex, ?_, ?_, ?_, ?_, by trivial, by trivial, by trivial⟩
    · intro hnn hp0 hb
      refine hjs _ hex hnn hp0 ?_ hb
      intro l0 hl0
      rcases List.mem_append.1 hl0 with hm | hm
      · exact hnn l0 hm
      · rw [List.mem_singleton.1 hm]
        exact ⟨by rw [hxp]; exact hp0, by show 0 ≤ q; omega⟩
    · simp
    · simp
    · intro i l0 hi
      have hlt : i < s.cart.lines.length := (List.getElem?_eq_some.1 hi).1
      exact ⟨l0, by
        show (s.cart.lines ++ _)[i]? = some l0
        rw [List.getElem?_append_left hlt, hi], rfl, fun _ => rfl⟩

/-- Witness of C17 (amended): three of product 2 (price 3000) are added to the cart that
holds two of product 1; the total goes from 10000 to 19000. -/
theorem addToCart_total_grows_witness :
    ((∀ l ∈ (addProductToCart initial (some "1") (some "2")).1.cart.lines,
        l.product ∈ (addProductToCart initial (some "1") (some "2")).1.products) ∧
      ((addProductToCart initial (some "1") (some "2")).1.products.map (fun x => x.id)).Nodup ∧
      parseInt (some "2") = JSNumber.int 2 ∧ (1 : Int) ≤ 2 ∧
      (∃ x ∈ (addProductToCart initial (some "1") (some "2")).1.products,
        x.id = 2 ∧ x.price = 3000) ∧
      parseInt (some "3") = JSNumber.int 3 ∧ (1 : Int) ≤ 3 ∧ (3 : Int) ≤ 99) ∧
    ((∀ l ∈ (addProductToCart initial (some "1") (some "2")).1.cart.lines,
        0 ≤ l.product.price ∧ 0 ≤ l.quantity) ∧ (0 : Int) ≤ 3000 ∧
      exactTotal (addProductToCart initial (some "1") (some "2")).1.cart + 3000 * 3 <
        2 ^ 53) ∧
    cartTotal
        (addProductToCart (addProductToCart initial (some "1") (some "2")).1
          (some "2") (some "3")).1.cart =
      JSNumber.int (exactTotal (addProductToCart initial (some "1") (some "2")).1.cart +
        3000 * 3) :=
  ⟨⟨by decide, by decide, by decide, by decide, by decide, by decide, by decide, by decide⟩,
   ⟨by decide, by decide, by decide⟩,
   ((addToCart_total_grows (addProductToCart initial (some "1") (some "2")).1
      (some "2") (some "3") 2 3 3000
      (by decide) (by decide) (by decide) (by decide) (by decide) (by decide) (by decide)
      (by decide)).2.1 (by decide) (by decide) (by decide)).2⟩

end Cart7
